import Mathlib

/-!
UefiTool: processor-targeted dispatch of MSR / CPUID operations.

A shallow embedding of `UefiTool.c`.

* Machine words are natural numbers, reduced modulo `2^32` / `2^64` where the
  C code stores them in a `UINT32` / `UINT64`.
* The firmware services the tool consumes (`LocateProtocol`, the MP services
  protocol, the `Asm*` primitives) are the fields of `Platform` and the `msr`
  store of `State`; every call the C code makes to one of them, and every
  `Print`, is appended to `State.trace` in program order.
* Dereferencing the null protocol pointer, the null/freed location buffer, or
  the location buffer out of bounds is undefined behaviour in C; the embedding
  stops there with a `Fault` and keeps the trace of what was done before it.
* Loops are structural recursions on a fuel argument that counts the
  iterations left; `rdmsrSweep_fuel` and `fillLocBuf_ok` show that the fuel
  the callers pass is enough.
-/

namespace UefiTool

/-! ## Status codes (64-bit encoding of `EFI_STATUS`) -/

abbrev EFI_STATUS := Nat

def MAX_BIT : Nat := 2 ^ 63

def EFI_SUCCESS : EFI_STATUS := 0

def EFI_INVALID_PARAMETER : EFI_STATUS := MAX_BIT + 2

def EFI_UNSUPPORTED : EFI_STATUS := MAX_BIT + 3

/-- The `EFI_ERROR` test: the status has its high bit set. -/
def EFI_ERROR (Status : EFI_STATUS) : Bool := decide (MAX_BIT ≤ Status)

/-! ## Bits definition of the command flag list -/

def OPCODE_RDMSR_BIT : Nat := 1

def OPCODE_WRMSR_BIT : Nat := 2

def OPCODE_CPUID_BIT : Nat := 4

def OPCODE_ALLPROCESSOR_BIT : Nat := 8

def OPCODE_PROCESSOR_INDEX_BIT : Nat := 16

/-! ## Data -/

structure EFI_CPU_PHYSICAL_LOCATION where
  Package : Nat
  Core : Nat
  Thread : Nat
deriving DecidableEq, Repr

structure EFI_PROCESSOR_INFORMATION where
  ProcessorId : Nat
  StatusFlag : Nat
  Location : EFI_CPU_PHYSICAL_LOCATION
deriving DecidableEq, Repr

/-- The request context `gUtContext`. -/
structure UEFI_TOOL_CONTEXT where
  MsrIndex : Nat
  MsrValue : Nat
  CpuIdIndex : Nat
  CpuIdSubIndex : Nat
  ProcessorIndex : Nat
deriving DecidableEq, Repr

/-- The module globals `mMpService`, `mProcessorLocBuf`, `mProcessorNum`,
`mBspIndex`. `mMpService = false` is the null protocol pointer;
`mProcessorLocBuf = none` is a null or freed buffer. -/
structure Globals where
  mMpService : Bool
  mProcessorLocBuf : Option (List EFI_PROCESSOR_INFORMATION)
  mProcessorNum : Nat
  mBspIndex : Nat
deriving DecidableEq, Repr

/-- Zero-initialised globals, as at image load. -/
def Globals.zero : Globals :=
  { mMpService := false, mProcessorLocBuf := none, mProcessorNum := 0, mBspIndex := 0 }

/-- Where an instruction executes: on the processor that called the routine,
or on the processor that `StartupThisAP` was asked to run a procedure on. -/
inductive Site where
  | Caller
  | AP (ProcessorNumber : Nat)
deriving DecidableEq, Repr

/-- The two procedures handed to `StartupThisAP`. -/
inductive AP_PROCEDURE where
  | ApUtReadMsr
  | ApUtReadCpuId
deriving DecidableEq, Repr

inductive RegName where
  | EAX
  | EBX
  | ECX
  | EDX
deriving DecidableEq, Repr

/-- One `Print` call: the format used and its arguments. -/
inductive Line where
  /-- `RDMSR[0x%X]: 0x%016lX` -/
  | RdMsr (MsrIndex MsrData : Nat)
  /-- `WR Data 0x%016lX to MSR[0x%X]` -/
  | WrMsr (MsrValue MsrIndex : Nat)
  /-- `CPUID Index: 0x%X     SubIndex: 0x%X` -/
  | CpuId (CpuIdIndex CpuIdSubIndex : Nat)
  /-- `RDMSR[0x%X][ProcNum: %d S%d_C%d_T%d]: [64b] 0x%016lX` (`0x%16lX` in
  the two in-place blocks of `UefiToolRoutine`) -/
  | RdMsrProc (MsrIndex Index Package Core Thread MsrData : Nat)
  /-- `CPUID[S%d_C%d_T%d]: Index: 0x%X     SubIndex: 0x%X` -/
  | CpuIdProc (Package Core Thread CpuIdIndex CpuIdSubIndex : Nat)
  /-- `EAX = 0x%08X` and its three siblings -/
  | Reg (r : RegName) (Value : Nat)
  /-- The two banner lines of `ShellAppMain` -/
  | Banner (n : Nat)
  /-- The eight lines of `ShowHelpInfo` -/
  | Help (n : Nat)
  /-- `Invaild parameter.` -/
  | Invalid
deriving DecidableEq, Repr

/-- Everything the routine does that is visible outside it. -/
inductive Event where
  | AsmReadMsr64 (site : Site) (Index : Nat)
  | AsmWriteMsr64 (site : Site) (Index Value : Nat)
  | AsmCpuidEx (site : Site) (Index SubIndex : Nat)
  | StartupThisAP (Procedure : AP_PROCEDURE) (ProcessorNumber : Nat)
  | Print (line : Line)
deriving DecidableEq, Repr

inductive Fault where
  | NullMpService
  | NullLocBuf
  | LocBufOutOfBounds (Index : Nat)
deriving DecidableEq, Repr

structure CPUID_REGS where
  Eax : Nat
  Ebx : Nat
  Ecx : Nat
  Edx : Nat
deriving DecidableEq, Repr

/-- The firmware and hardware the tool runs on. A status field is what the
service returns; a paired value is what it stores through its out-pointer on
success. `StartupThisAP n` is the status of a blocking `StartupThisAP` call
for processor number `n`: on success the procedure has run to completion on
that processor. `StrHexToUintn` is the library conversion of a hexadecimal
string (a list of 16-bit code units) to a `UINTN`. -/
structure Platform where
  LocateProtocol : EFI_STATUS
  GetNumberOfProcessors : EFI_STATUS × Nat
  AllocatePool : EFI_STATUS
  GetProcessorInfo : Nat → EFI_STATUS × EFI_PROCESSOR_INFORMATION
  WhoAmI : EFI_STATUS × Nat
  StartupThisAP : Nat → EFI_STATUS
  Cpuid : Site → Nat → Nat → CPUID_REGS
  StrHexToUintn : List Nat → Nat

/-- Mutable machine state: the per-processor register store and the trace. -/
structure State where
  msr : Site → Nat → Nat
  trace : List Event

def State.emit (s : State) (e : Event) : State :=
  { s with trace := s.trace ++ [e] }

/-! ## Primitives -/

def AsmReadMsr64 (site : Site) (Index : Nat) (s : State) : Nat × State :=
  (s.msr site Index % 2 ^ 64, s.emit (.AsmReadMsr64 site Index))

def AsmWriteMsr64 (site : Site) (Index Value : Nat) (s : State) : Nat × State :=
  (Value,
    { msr := fun c i => if c = site ∧ i = Index then Value else s.msr c i
      trace := s.trace ++ [.AsmWriteMsr64 site Index Value] })

def AsmCpuidEx (p : Platform) (site : Site) (Index SubIndex : Nat) (s : State) :
    CPUID_REGS × State :=
  let r := p.Cpuid site Index SubIndex
  ({ Eax := r.Eax % 2 ^ 32, Ebx := r.Ebx % 2 ^ 32, Ecx := r.Ecx % 2 ^ 32, Edx := r.Edx % 2 ^ 32 },
    s.emit (.AsmCpuidEx site Index SubIndex))

def Print (l : Line) (s : State) : State := s.emit (.Print l)

/-- How a run ends: normally, in a state; or at a fault, with the trace of
what had been done before it. -/
abbrev Outcome (α : Type) := Except (Fault × List Event) α

/-- The read `mProcessorLocBuf[Index]`. -/
def locBufAt (g : Globals) (Index : Nat) (s : State) : Outcome EFI_PROCESSOR_INFORMATION :=
  match g.mProcessorLocBuf with
  | none => .error (.NullLocBuf, s.trace)
  | some buf =>
    match buf[Index]? with
    | none => .error (.LocBufOutOfBounds Index, s.trace)
    | some e => .ok e

/-! ## Topology discovery -/

/-- The loop of `GetProcessorsCpuLocation` that fills the location buffer,
from `Index` on, `acc` being the entries already stored. `none` when a
`GetProcessorInfo` call fails. -/
def fillLocBuf (p : Platform) (Num : Nat) : Nat → Nat → List EFI_PROCESSOR_INFORMATION →
    EFI_STATUS × Option (List EFI_PROCESSOR_INFORMATION)
  | 0, _, acc => (EFI_SUCCESS, some acc)
  | fuel + 1, Index, acc =>
    if Index < Num then
      let r := p.GetProcessorInfo Index
      if EFI_ERROR r.1 then (r.1, none)
      else fillLocBuf p Num fuel (Index + 1) (acc ++ [r.2])
    else (EFI_SUCCESS, some acc)

def GetProcessorsCpuLocation (p : Platform) (g : Globals) : EFI_STATUS × Globals :=
  if EFI_ERROR p.LocateProtocol then
    (EFI_UNSUPPORTED, { g with mMpService := false })
  else
    let g := { g with mMpService := true }
    if EFI_ERROR p.GetNumberOfProcessors.1 then
      (p.GetNumberOfProcessors.1, g)
    else
      let g := { g with mProcessorNum := p.GetNumberOfProcessors.2 }
      if EFI_ERROR p.AllocatePool then
        (p.AllocatePool, g)
      else
        match fillLocBuf p g.mProcessorNum g.mProcessorNum 0 [] with
        | (Status, none) => (Status, { g with mProcessorLocBuf := none })
        | (_, some buf) =>
          let g := { g with mProcessorLocBuf := some buf }
          if EFI_ERROR p.WhoAmI.1 then (p.WhoAmI.1, g)
          else (p.WhoAmI.1, { g with mBspIndex := p.WhoAmI.2 })

/-! ## Procedures run on an application processor -/

def ApUtReadMsr (g : Globals) (ctx : UEFI_TOOL_CONTEXT) (site : Site) (Index : Nat)
    (s : State) : Outcome State := do
  let r := AsmReadMsr64 site ctx.MsrIndex s
  let e ← locBufAt g Index r.2
  pure (Print (.RdMsrProc ctx.MsrIndex Index e.Location.Package e.Location.Core
    e.Location.Thread r.1) r.2)

def ApUtReadCpuId (p : Platform) (g : Globals) (ctx : UEFI_TOOL_CONTEXT) (site : Site)
    (Index : Nat) (s : State) : Outcome State := do
  let r := AsmCpuidEx p site ctx.CpuIdIndex ctx.CpuIdSubIndex s
  let e ← locBufAt g Index r.2
  let s := Print (.CpuIdProc e.Location.Package e.Location.Core e.Location.Thread
    ctx.CpuIdIndex ctx.CpuIdSubIndex) r.2
  let s := Print (.Reg .EAX r.1.Eax) s
  let s := Print (.Reg .EBX r.1.Ebx) s
  let s := Print (.Reg .ECX r.1.Ecx) s
  pure (Print (.Reg .EDX r.1.Edx) s)

/-- The call `mMpService->StartupThisAP (mMpService, Procedure, ProcessorNumber,
NULL, 0, &Index, NULL)`: blocking, the procedure receives a pointer to `Index`.
The status is returned to the caller. -/
def StartupThisAP (p : Platform) (g : Globals) (ctx : UEFI_TOOL_CONTEXT)
    (Procedure : AP_PROCEDURE) (ProcessorNumber : Nat) (Index : Nat) (s : State) :
    Outcome (EFI_STATUS × State) :=
  if g.mMpService = false then .error (.NullMpService, s.trace)
  else
    let s := s.emit (.StartupThisAP Procedure ProcessorNumber)
    if EFI_ERROR (p.StartupThisAP ProcessorNumber) then
      .ok (p.StartupThisAP ProcessorNumber, s)
    else
      match Procedure with
      | .ApUtReadMsr =>
        (ApUtReadMsr g ctx (.AP ProcessorNumber) Index s).map
          (fun s => (p.StartupThisAP ProcessorNumber, s))
      | .ApUtReadCpuId =>
        (ApUtReadCpuId p g ctx (.AP ProcessorNumber) Index s).map
          (fun s => (p.StartupThisAP ProcessorNumber, s))

/-! ## The dispatcher -/

/-- The body of the `RDMSR` blocks for one `Index`: in place when `Index` is
`mBspIndex`, through `StartupThisAP` otherwise (its status is discarded). -/
def rdmsrOn (p : Platform) (g : Globals) (ctx : UEFI_TOOL_CONTEXT) (Index : Nat)
    (s : State) : Outcome State :=
  if Index = g.mBspIndex then do
    let e ← locBufAt g Index s
    let r := AsmReadMsr64 .Caller ctx.MsrIndex s
    pure (Print (.RdMsrProc ctx.MsrIndex Index e.Location.Package e.Location.Core
      e.Location.Thread r.1) r.2)
  else
    (StartupThisAP p g ctx .ApUtReadMsr Index Index s).map (fun r => r.2)

/-- The body of the `CPUID | PROCESSOR_INDEX` block. -/
def cpuidOn (p : Platform) (g : Globals) (ctx : UEFI_TOOL_CONTEXT) (Index : Nat)
    (s : State) : Outcome State :=
  if Index = g.mBspIndex then do
    let r := AsmCpuidEx p .Caller ctx.CpuIdIndex ctx.CpuIdSubIndex s
    let e ← locBufAt g Index r.2
    let s := Print (.CpuIdProc e.Location.Package e.Location.Core e.Location.Thread
      ctx.CpuIdIndex ctx.CpuIdSubIndex) r.2
    let s := Print (.Reg .EAX r.1.Eax) s
    let s := Print (.Reg .EBX r.1.Ebx) s
    let s := Print (.Reg .ECX r.1.Ecx) s
    pure (Print (.Reg .EDX r.1.Edx) s)
  else
    (StartupThisAP p g ctx .ApUtReadCpuId Index Index s).map (fun r => r.2)

/-- The loop `for (Index = 0; Index < mProcessorNum; Index++)` of the
`RDMSR | ALLPROCESSOR` block, from `Index` on. -/
def rdmsrSweep (p : Platform) (g : Globals) (ctx : UEFI_TOOL_CONTEXT) :
    Nat → Nat → State → Outcome State
  | 0, _, s => .ok s
  | fuel + 1, Index, s =>
    if Index < g.mProcessorNum then
      match rdmsrOn p g ctx Index s with
      | .error f => .error f
      | .ok s => rdmsrSweep p g ctx fuel (Index + 1) s
    else .ok s

def UefiToolRoutine (p : Platform) (g : Globals) (ctx : UEFI_TOOL_CONTEXT) (Opcode : Nat)
    (s : State) : Outcome State := do
  let s ←
    if Opcode = OPCODE_RDMSR_BIT then
      let r := AsmReadMsr64 .Caller ctx.MsrIndex s
      pure (Print (.RdMsr ctx.MsrIndex r.1) r.2)
    else pure s
  let s ←
    if Opcode = OPCODE_WRMSR_BIT then
      let r := AsmWriteMsr64 .Caller ctx.MsrIndex ctx.MsrValue s
      pure (Print (.WrMsr ctx.MsrValue ctx.MsrIndex) r.2)
    else pure s
  let s ←
    if Opcode = OPCODE_CPUID_BIT then
      let r := AsmCpuidEx p .Caller ctx.CpuIdIndex ctx.CpuIdSubIndex s
      let s := Print (.CpuId ctx.CpuIdIndex ctx.CpuIdSubIndex) r.2
      let s := Print (.Reg .EAX r.1.Eax) s
      let s := Print (.Reg .EBX r.1.Ebx) s
      let s := Print (.Reg .ECX r.1.Ecx) s
      pure (Print (.Reg .EDX r.1.Edx) s)
    else pure s
  let s ←
    if Opcode = OPCODE_RDMSR_BIT ||| OPCODE_PROCESSOR_INDEX_BIT then
      rdmsrOn p g ctx ctx.ProcessorIndex s
    else pure s
  let s ←
    if Opcode = OPCODE_CPUID_BIT ||| OPCODE_PROCESSOR_INDEX_BIT then
      cpuidOn p g ctx ctx.ProcessorIndex s
    else pure s
  if Opcode = OPCODE_RDMSR_BIT ||| OPCODE_ALLPROCESSOR_BIT then
    rdmsrSweep p g ctx g.mProcessorNum 0 s
  else pure s

/-! ## Command line -/

def ToUpper (a : Nat) : Nat :=
  if 97 ≤ a ∧ a ≤ 122 then (a - 0x20) % 2 ^ 16 else a

/-- Upper-cases a string in place; a string is the list of its code units, and
ends at the first `0` if it holds one. -/
def StrUpr : List Nat → List Nat
  | [] => []
  | c :: cs => if c = 0 then c :: cs else ToUpper c :: StrUpr cs

/-- The library string comparison: the difference of the first two code units
that differ, the end of a list reading as the terminator `0`. -/
def StrCmp : List Nat → List Nat → Int
  | [], [] => 0
  | [], b :: _ => 0 - (b : Int)
  | a :: _, [] => (a : Int)
  | a :: as, b :: bs => if a ≠ 0 ∧ a = b then StrCmp as bs else (a : Int) - (b : Int)

/-- The code units of a string literal. -/
def L (cs : List Char) : List Nat := cs.map Char.toNat

def ShowHelpInfo (s : State) : State :=
  (List.range 8).foldl (fun s n => Print (.Help n) s) s

/-- The token loop of `ShellAppMain`. `Index` is a `UINT8`. `none` when the
loop has not ended within `fuel` iterations. -/
def scanArgs (p : Platform) (Argc : Nat) :
    Nat → List (List Nat) → Nat → Nat → UEFI_TOOL_CONTEXT → Option (Nat × UEFI_TOOL_CONTEXT)
  | 0, _, _, _, _ => none
  | fuel + 1, Argv, Index, Opcode, ctx =>
    if Index + 1 > Argc then some (Opcode, ctx)
    else
      let Argv := Argv.set Index (StrUpr (Argv.getD Index []))
      if Index + 1 < Argc ∧ StrCmp (Argv.getD Index []) (L ['R', 'D', 'M', 'S', 'R']) = 0 then
        scanArgs p Argc fuel Argv ((Index + 2) % 2 ^ 8) (Opcode ||| OPCODE_RDMSR_BIT)
          { ctx with MsrIndex := p.StrHexToUintn (Argv.getD (Index + 1) []) % 2 ^ 32 }
      else if Index + 2 < Argc ∧
          StrCmp (Argv.getD Index []) (L ['W', 'R', 'M', 'S', 'R']) = 0 then
        scanArgs p Argc fuel Argv ((Index + 3) % 2 ^ 8) (Opcode ||| OPCODE_WRMSR_BIT)
          { ctx with
            MsrIndex := p.StrHexToUintn (Argv.getD (Index + 1) []) % 2 ^ 32
            MsrValue := p.StrHexToUintn (Argv.getD (Index + 2) []) % 2 ^ 64 }
      else if Index + 2 < Argc ∧
          StrCmp (Argv.getD Index []) (L ['C', 'P', 'U', 'I', 'D']) = 0 then
        scanArgs p Argc fuel Argv ((Index + 3) % 2 ^ 8) (Opcode ||| OPCODE_CPUID_BIT)
          { ctx with
            CpuIdIndex := p.StrHexToUintn (Argv.getD (Index + 1) []) % 2 ^ 32
            CpuIdSubIndex := p.StrHexToUintn (Argv.getD (Index + 2) []) % 2 ^ 32 }
      else if Index < Argc ∧ StrCmp (Argv.getD Index []) (L ['-', 'A']) = 0 then
        scanArgs p Argc fuel Argv ((Index + 1) % 2 ^ 8) (Opcode ||| OPCODE_ALLPROCESSOR_BIT) ctx
      else if Index + 1 < Argc ∧ StrCmp (Argv.getD Index []) (L ['-', 'P']) = 0 then
        scanArgs p Argc fuel Argv ((Index + 2) % 2 ^ 8) (Opcode ||| OPCODE_PROCESSOR_INDEX_BIT)
          { ctx with ProcessorIndex := p.StrHexToUintn (Argv.getD (Index + 1) []) % 2 ^ 64 }
      else
        scanArgs p Argc fuel Argv ((Index + 1) % 2 ^ 8) Opcode ctx

/-- The entry point, started on zero-initialised globals. The result is the
returned `INTN` (as its 64-bit pattern) and the final state; `none` when the
token loop has not ended within `fuel` iterations. -/
def ShellAppMain (p : Platform) (fuel : Nat) (Argv : List (List Nat)) (s : State) :
    Option (Outcome (Nat × State)) :=
  let Argc := Argv.length
  let s := Print (.Banner 1) (Print (.Banner 0) s)
  if Argc = 1 then
    some (.ok (EFI_INVALID_PARAMETER, ShowHelpInfo s))
  else if Argc = 2 then
    let a := StrUpr (Argv.getD 1 [])
    if StrCmp a (L ['/', 'H']) = 0 ∨ StrCmp a (L ['-', 'H']) = 0 ∨
        StrCmp a (L ['/', '?']) = 0 ∨ StrCmp a (L ['-', '?']) = 0 then
      some (.ok (EFI_SUCCESS, ShowHelpInfo s))
    else
      some (.ok (EFI_INVALID_PARAMETER, Print .Invalid s))
  else
    let ctx : UEFI_TOOL_CONTEXT :=
      { MsrIndex := 0, MsrValue := 0, CpuIdIndex := 0, CpuIdSubIndex := 0, ProcessorIndex := 0 }
    let g := (GetProcessorsCpuLocation p Globals.zero).2
    match scanArgs p Argc fuel Argv 1 0 ctx with
    | none => none
    | some r => some ((UefiToolRoutine p g r.2 r.1 s).map (fun s => (0, s)))

/-! ## Observations on a trace -/

/-- The trace a run leaves: that of its final state, or what was done before
the fault. -/
def Outcome.trace : Outcome State → List Event
  | .ok s => s.trace
  | .error e => e.2

/-- The calls made to the remote-execution service: procedure and target. -/
def remoteCalls (t : List Event) : List (AP_PROCEDURE × Nat) :=
  t.filterMap fun e =>
    match e with
    | .StartupThisAP f n => some (f, n)
    | _ => none

/-- The invocations of a read, write or identification primitive, with the
site each ran at. -/
def primitives (t : List Event) : List Event :=
  t.filter fun e =>
    match e with
    | .AsmReadMsr64 _ _ => true
    | .AsmWriteMsr64 _ _ _ => true
    | .AsmCpuidEx _ _ _ => true
    | _ => false

/-- A result record: the processor index and coordinates it reports, if any,
and its result fields. -/
structure ResultRecord where
  ProcNum : Option Nat
  Location : Option EFI_CPU_PHYSICAL_LOCATION
  Fields : List Nat
deriving DecidableEq, Repr

/-- Right-to-left grouping of the printed lines into records: the register
lines met so far that no header has claimed yet, and the records found. -/
def recordsAux : List Event → List Nat × List ResultRecord
  | [] => ([], [])
  | e :: es =>
    let r := recordsAux es
    match e with
    | .Print (.Reg _ v) => (v :: r.1, r.2)
    | .Print (.RdMsr _ v) =>
      ([], { ProcNum := none, Location := none, Fields := v :: r.1 } :: r.2)
    | .Print (.WrMsr v _) =>
      ([], { ProcNum := none, Location := none, Fields := v :: r.1 } :: r.2)
    | .Print (.CpuId _ _) =>
      ([], { ProcNum := none, Location := none, Fields := r.1 } :: r.2)
    | .Print (.RdMsrProc _ i pk c t v) =>
      ([], { ProcNum := some i, Location := some ⟨pk, c, t⟩, Fields := v :: r.1 } :: r.2)
    | .Print (.CpuIdProc pk c t _ _) =>
      ([], { ProcNum := none, Location := some ⟨pk, c, t⟩, Fields := r.1 } :: r.2)
    | _ => r

/-- The result records printed in a trace, in order. -/
def records (t : List Event) : List ResultRecord := (recordsAux t).2

/-- A discovered topology: the protocol is there, the buffer holds one
descriptor per processor, and the boot index is one of them. -/
def Globals.Discovered (g : Globals) : Prop :=
  g.mMpService = true ∧ g.mBspIndex < g.mProcessorNum ∧
    g.mProcessorLocBuf.map List.length = some g.mProcessorNum

instance (g : Globals) : Decidable g.Discovered := by
  unfold Globals.Discovered; infer_instance

/-- The descriptor of processor `k` in the buffer (zero when there is none). -/
def Globals.descriptor (g : Globals) (k : Nat) : EFI_PROCESSOR_INFORMATION :=
  (g.mProcessorLocBuf.getD []).getD k ⟨0, 0, ⟨0, 0, 0⟩⟩

/-! ## Concrete machines used in the examples -/

def ERR_NOT_FOUND : EFI_STATUS := MAX_BIT + 14

def ERR_NOT_READY : EFI_STATUS := MAX_BIT + 6

/-- The value of a hexadecimal digit given as a code unit (0 for any other). -/
def hexDigitValue (c : Nat) : Nat :=
  if 48 ≤ c ∧ c ≤ 57 then c - 48
  else if 65 ≤ c ∧ c ≤ 70 then c - 55
  else if 97 ≤ c ∧ c ≤ 102 then c - 87
  else 0

/-- A platform with `n` processors, processor `k` at package 0, core `k`,
thread 0, whose boot processor is `b` and whose `StartupThisAP` answers
`startup`; `mp` is the status of locating the MP services protocol, and
strings are read as plain hexadecimal numbers. -/
def examplePlatform (mp : EFI_STATUS) (n b : Nat) (startup : Nat → EFI_STATUS) : Platform :=
  { LocateProtocol := mp
    GetNumberOfProcessors := (EFI_SUCCESS, n)
    AllocatePool := EFI_SUCCESS
    GetProcessorInfo := fun k => (EFI_SUCCESS, ⟨k, 0, ⟨0, k, 0⟩⟩)
    WhoAmI := (EFI_SUCCESS, b)
    StartupThisAP := startup
    Cpuid := fun _ Index SubIndex => ⟨Index, SubIndex, 0, 0⟩
    StrHexToUintn := fun str => str.foldl (fun v c => (16 * v + hexDigitValue c) % 2 ^ 64) 0 }

def exampleState : State := { msr := fun _ Index => Index + 7, trace := [] }

/-- The globals after discovery on a platform of `n` processors with boot
processor `b`. -/
def exampleTopology (n b : Nat) : Globals :=
  (GetProcessorsCpuLocation (examplePlatform EFI_SUCCESS n b (fun _ => EFI_SUCCESS))
    Globals.zero).2

/-- A request context naming register `0x10`, leaf `1`, sub-leaf `0` and
processor `idx`. -/
def exampleContext (idx : Nat) : UEFI_TOOL_CONTEXT :=
  { MsrIndex := 0x10, MsrValue := 0, CpuIdIndex := 1, CpuIdSubIndex := 0, ProcessorIndex := idx }

/-- The fault a run stopped at, if it did. -/
def Outcome.fault : Outcome State → Option Fault
  | .ok _ => none
  | .error e => some e.1

/-- The processor the read for index `k` executes on. -/
def readSite (g : Globals) (k : Nat) : Site :=
  if k = g.mBspIndex then .Caller else .AP k

/-- The targeted read record of processor `k` holding `v`. -/
def rdmsrLine (g : Globals) (ctx : UEFI_TOOL_CONTEXT) (k v : Nat) : Event :=
  .Print (.RdMsrProc ctx.MsrIndex k (g.descriptor k).Location.Package
    (g.descriptor k).Location.Core (g.descriptor k).Location.Thread v)

/-- Expected events of one pass of the `RDMSR` body for index `k`, over the
register store `msr`. -/
def rdmsrEvents (p : Platform) (g : Globals) (ctx : UEFI_TOOL_CONTEXT)
    (msr : Site → Nat → Nat) (k : Nat) : List Event :=
  if k = g.mBspIndex then
    [.AsmReadMsr64 .Caller ctx.MsrIndex,
      rdmsrLine g ctx k (msr .Caller ctx.MsrIndex % 2 ^ 64)]
  else if EFI_ERROR (p.StartupThisAP k) then
    [.StartupThisAP .ApUtReadMsr k]
  else
    [.StartupThisAP .ApUtReadMsr k, .AsmReadMsr64 (.AP k) ctx.MsrIndex,
      rdmsrLine g ctx k (msr (.AP k) ctx.MsrIndex % 2 ^ 64)]

/-- The masked outputs of the identification primitive at `site`. -/
def cpuidFields (p : Platform) (ctx : UEFI_TOOL_CONTEXT) (site : Site) : List Nat :=
  [(p.Cpuid site ctx.CpuIdIndex ctx.CpuIdSubIndex).Eax % 2 ^ 32,
    (p.Cpuid site ctx.CpuIdIndex ctx.CpuIdSubIndex).Ebx % 2 ^ 32,
    (p.Cpuid site ctx.CpuIdIndex ctx.CpuIdSubIndex).Ecx % 2 ^ 32,
    (p.Cpuid site ctx.CpuIdIndex ctx.CpuIdSubIndex).Edx % 2 ^ 32]

/-- Whether the pass of the `RDMSR` body for index `k` executes the read
primitive: in place for the boot index, otherwise when `StartupThisAP` runs the
procedure. -/
def executes (p : Platform) (g : Globals) (k : Nat) : Bool :=
  decide (k = g.mBspIndex) || !EFI_ERROR (p.StartupThisAP k)

/-- The globals once `GetProcessorsCpuLocation` has run at start-up. -/
def discover (p : Platform) : Globals := (GetProcessorsCpuLocation p Globals.zero).2

/-- The answers of a firmware `StartupThisAP` on `n` processors with boot
processor `b`: not found beyond the last processor, invalid for the boot
processor itself, success otherwise. -/
def firmwareStartup (n b : Nat) (k : Nat) : EFI_STATUS :=
  if n ≤ k then ERR_NOT_FOUND else if k = b then EFI_INVALID_PARAMETER else EFI_SUCCESS

/-- The five lines of a targeted identification record for index `k`, the
primitive having run at `site`. -/
def cpuidLines (p : Platform) (g : Globals) (ctx : UEFI_TOOL_CONTEXT) (site : Site)
    (k : Nat) : List Event :=
  [.Print (.CpuIdProc (g.descriptor k).Location.Package (g.descriptor k).Location.Core
      (g.descriptor k).Location.Thread ctx.CpuIdIndex ctx.CpuIdSubIndex),
    .Print (.Reg .EAX ((p.Cpuid site ctx.CpuIdIndex ctx.CpuIdSubIndex).Eax % 2 ^ 32)),
    .Print (.Reg .EBX ((p.Cpuid site ctx.CpuIdIndex ctx.CpuIdSubIndex).Ebx % 2 ^ 32)),
    .Print (.Reg .ECX ((p.Cpuid site ctx.CpuIdIndex ctx.CpuIdSubIndex).Ecx % 2 ^ 32)),
    .Print (.Reg .EDX ((p.Cpuid site ctx.CpuIdIndex ctx.CpuIdSubIndex).Edx % 2 ^ 32))]

/-- Expected events of the `CPUID | PROCESSOR_INDEX` block for index `k`. -/
def cpuidEvents (p : Platform) (g : Globals) (ctx : UEFI_TOOL_CONTEXT) (k : Nat) : List Event :=
  if k = g.mBspIndex then
    .AsmCpuidEx .Caller ctx.CpuIdIndex ctx.CpuIdSubIndex :: cpuidLines p g ctx .Caller k
  else if EFI_ERROR (p.StartupThisAP k) then
    [.StartupThisAP .ApUtReadCpuId k]
  else
    .StartupThisAP .ApUtReadCpuId k :: .AsmCpuidEx (.AP k) ctx.CpuIdIndex ctx.CpuIdSubIndex ::
      cpuidLines p g ctx (.AP k) k

/-- A platform on which the MP services protocol is not installed. -/
def noMpPlatform : Platform := examplePlatform ERR_NOT_FOUND 1 0 (fun _ => ERR_NOT_FOUND)

/-- Two argument vectors that differ at most in the case of letters: as many
tokens, and token by token the same string once upper-cased. -/
def SameUpToCase (A B : List (List Nat)) : Prop :=
  A.length = B.length ∧ ∀ i, StrUpr (A.getD i []) = StrUpr (B.getD i [])

/-- No token of the vector is, once upper-cased, an operation keyword with its
operands still inside the vector: `RDMSR` with one token after it, `WRMSR` or
`CPUID` with two. -/
def NoOperationKeyword (Argc : Nat) (Argv : List (List Nat)) : Prop :=
  ∀ i,
    (i + 1 < Argc → StrCmp (StrUpr (Argv.getD i [])) (L ['R', 'D', 'M', 'S', 'R']) ≠ 0) ∧
    (i + 2 < Argc →
      StrCmp (StrUpr (Argv.getD i [])) (L ['W', 'R', 'M', 'S', 'R']) ≠ 0 ∧
      StrCmp (StrUpr (Argv.getD i [])) (L ['C', 'P', 'U', 'I', 'D']) ≠ 0)

/-- A platform of `n` processors laid out as two threads per core and two
cores per package, with boot processor `b`. -/
def smtPlatform (n b : Nat) : Platform :=
  { examplePlatform EFI_SUCCESS n b (firmwareStartup n b) with
    GetProcessorInfo := fun k => (EFI_SUCCESS, ⟨k, 0, ⟨k / 4, k / 2 % 2, k % 2⟩⟩) }

/-- A platform of `n` processors with boot processor `b` on which processor
`k` does not answer `StartupThisAP` (it is busy), the others as
`firmwareStartup` says. -/
def busyPlatform (n b k : Nat) : Platform :=
  examplePlatform EFI_SUCCESS n b
    (fun j => if j = k then ERR_NOT_READY else firmwareStartup n b j)

/-! ## Lemmas -/

theorem discovered_buf {g : Globals} (h : g.Discovered) :
    ∃ buf, g.mProcessorLocBuf = some buf ∧ buf.length = g.mProcessorNum := by
  obtain ⟨_, _, h3⟩ := h
  cases hb : g.mProcessorLocBuf with
  | none => simp [hb] at h3
  | some buf => exact ⟨buf, rfl, by simpa [hb] using h3⟩

theorem locBufAt_ok {g : Globals} (h : g.Discovered) {k : Nat} (hk : k < g.mProcessorNum)
    (s : State) : locBufAt g k s = .ok (g.descriptor k) := by
  obtain ⟨buf, hb, hl⟩ := discovered_buf h
  have hk2 : k < buf.length := by omega
  simp [locBufAt, Globals.descriptor, hb, List.getElem?_eq_getElem hk2, List.getD_eq_getElem?_getD]

theorem rdmsrOn_eq (p : Platform) {g : Globals} (h : g.Discovered) (ctx : UEFI_TOOL_CONTEXT)
    {k : Nat} (hk : k < g.mProcessorNum) (s : State) :
    rdmsrOn p g ctx k s = .ok ⟨s.msr, s.trace ++ rdmsrEvents p g ctx s.msr k⟩ := by
  have hmp : g.mMpService = true := h.1
  by_cases hb : k = g.mBspIndex
  · simp [rdmsrOn, rdmsrEvents, rdmsrLine, hb, locBufAt_ok h (hb ▸ hk), AsmReadMsr64, Print,
      State.emit, bind, Except.bind, pure, Except.pure]
  · by_cases he : EFI_ERROR (p.StartupThisAP k) = true
    · simp [rdmsrOn, rdmsrEvents, hb, he, StartupThisAP, hmp, State.emit, Except.map]
    · simp [rdmsrOn, rdmsrEvents, rdmsrLine, hb, he, StartupThisAP, hmp, State.emit, Except.map,
        ApUtReadMsr, locBufAt_ok h hk, AsmReadMsr64, Print, bind, Except.bind, pure, Except.pure]

theorem rdmsrSweep_eq (p : Platform) {g : Globals} (h : g.Discovered) (ctx : UEFI_TOOL_CONTEXT) :
    ∀ (fuel Index : Nat) (s : State), Index + fuel = g.mProcessorNum →
      rdmsrSweep p g ctx fuel Index s =
        .ok ⟨s.msr, s.trace ++ (List.range' Index fuel).flatMap (rdmsrEvents p g ctx s.msr)⟩ := by
  intro fuel
  induction fuel with
  | zero => intro Index s _; simp [rdmsrSweep]
  | succ n ih =>
    intro Index s hN
    have hk : Index < g.mProcessorNum := by omega
    simp only [rdmsrSweep, hk, if_true, rdmsrOn_eq p h ctx hk s]
    rw [ih (Index + 1) _ (by omega)]
    simp [List.range'_succ, List.append_assoc]

/-- Fuel beyond the number of processors left is never used: the loop of the
sweep has ended by then. -/
theorem rdmsrSweep_fuel (p : Platform) (g : Globals) (ctx : UEFI_TOOL_CONTEXT) :
    ∀ (fuel extra Index : Nat) (s : State), g.mProcessorNum ≤ Index + fuel →
      rdmsrSweep p g ctx (fuel + extra) Index s = rdmsrSweep p g ctx fuel Index s := by
  intro fuel
  induction fuel with
  | zero =>
    intro extra Index s hN
    cases extra with
    | zero => rfl
    | succ e =>
      have hk : ¬ Index < g.mProcessorNum := by omega
      simp [rdmsrSweep, hk]
  | succ n ih =>
    intro extra Index s hN
    rw [show n + 1 + extra = (n + extra) + 1 by omega]
    simp only [rdmsrSweep]
    split
    · cases rdmsrOn p g ctx Index s with
      | error f => rfl
      | ok s2 => exact ih extra (Index + 1) s2 (by omega)
    · rfl

theorem remoteCalls_append (a b : List Event) :
    remoteCalls (a ++ b) = remoteCalls a ++ remoteCalls b := by
  simp [remoteCalls]

theorem primitives_append (a b : List Event) :
    primitives (a ++ b) = primitives a ++ primitives b := by
  simp [primitives]

/-- Records of a trace followed by one that opens with no unclaimed register
line. -/
theorem recordsAux_append (a b : List Event) (hb : (recordsAux b).1 = []) :
    recordsAux (a ++ b) = ((recordsAux a).1, (recordsAux a).2 ++ (recordsAux b).2) := by
  induction a with
  | nil => simp [recordsAux, ← hb]
  | cons e es ih =>
    cases e with
    | Print l => cases l <;> simp [recordsAux, ih]
    | _ => simp [recordsAux, ih]

theorem remoteCalls_rdmsrEvents (p : Platform) (g : Globals) (ctx : UEFI_TOOL_CONTEXT)
    (msr : Site → Nat → Nat) (l : List Nat) :
    remoteCalls (l.flatMap (rdmsrEvents p g ctx msr)) =
      (l.filter (fun k => decide (k ≠ g.mBspIndex))).map (fun k => (AP_PROCEDURE.ApUtReadMsr, k)) := by
  induction l with
  | nil => rfl
  | cons k ks ih =>
    rw [List.flatMap_cons, remoteCalls_append, ih]
    by_cases hb : k = g.mBspIndex
    · simp [rdmsrEvents, rdmsrLine, remoteCalls, hb]
    · by_cases he : EFI_ERROR (p.StartupThisAP k) = true <;>
        simp [rdmsrEvents, rdmsrLine, remoteCalls, hb, he]

/-- The reads of a sweep over the indices `l`: one for each index whose pass
executes it. -/
theorem primitives_rdmsrEvents_gen (p : Platform) (g : Globals) (ctx : UEFI_TOOL_CONTEXT)
    (msr : Site → Nat → Nat) (l : List Nat) :
    primitives (l.flatMap (rdmsrEvents p g ctx msr)) =
      (l.filter (executes p g)).map (fun k => Event.AsmReadMsr64 (readSite g k) ctx.MsrIndex) := by
  induction l with
  | nil => rfl
  | cons k ks ih =>
    rw [List.flatMap_cons, primitives_append, ih]
    by_cases hb : k = g.mBspIndex
    · simp [rdmsrEvents, rdmsrLine, primitives, readSite, executes, hb]
    · by_cases he : EFI_ERROR (p.StartupThisAP k) = true <;>
        simp [rdmsrEvents, rdmsrLine, primitives, readSite, executes, hb, he]

theorem recordsAux_rdmsrEvents_gen (p : Platform) (g : Globals) (ctx : UEFI_TOOL_CONTEXT)
    (msr : Site → Nat → Nat) (l : List Nat) :
    recordsAux (l.flatMap (rdmsrEvents p g ctx msr)) =
      ([], (l.filter (executes p g)).map (fun k =>
        { ProcNum := some k, Location := some (g.descriptor k).Location,
          Fields := [msr (readSite g k) ctx.MsrIndex % 2 ^ 64] })) := by
  induction l with
  | nil => rfl
  | cons k ks ih =>
    rw [List.flatMap_cons, recordsAux_append _ _ (by rw [ih]), ih]
    by_cases hb : k = g.mBspIndex
    · simp [rdmsrEvents, rdmsrLine, recordsAux, readSite, executes, hb]
    · by_cases he : EFI_ERROR (p.StartupThisAP k) = true <;>
        simp [rdmsrEvents, rdmsrLine, recordsAux, readSite, executes, hb, he]

theorem filter_executes_eq (p : Platform) (g : Globals) (l : List Nat)
    (hl : ∀ k ∈ l, k ≠ g.mBspIndex → EFI_ERROR (p.StartupThisAP k) = false) :
    l.filter (executes p g) = l := by
  rw [List.filter_eq_self]
  intro k hk
  by_cases hb : k = g.mBspIndex
  · simp [executes, hb]
  · simp [executes, hb, hl k hk hb]

theorem primitives_rdmsrEvents (p : Platform) (g : Globals) (ctx : UEFI_TOOL_CONTEXT)
    (msr : Site → Nat → Nat) (l : List Nat)
    (hl : ∀ k ∈ l, k ≠ g.mBspIndex → EFI_ERROR (p.StartupThisAP k) = false) :
    primitives (l.flatMap (rdmsrEvents p g ctx msr)) =
      l.map (fun k => Event.AsmReadMsr64 (readSite g k) ctx.MsrIndex) := by
  rw [primitives_rdmsrEvents_gen, filter_executes_eq p g l hl]

theorem recordsAux_rdmsrEvents (p : Platform) (g : Globals) (ctx : UEFI_TOOL_CONTEXT)
    (msr : Site → Nat → Nat) (l : List Nat)
    (hl : ∀ k ∈ l, k ≠ g.mBspIndex → EFI_ERROR (p.StartupThisAP k) = false) :
    recordsAux (l.flatMap (rdmsrEvents p g ctx msr)) =
      ([], l.map (fun k =>
        { ProcNum := some k, Location := some (g.descriptor k).Location,
          Fields := [msr (readSite g k) ctx.MsrIndex % 2 ^ 64] })) := by
  rw [recordsAux_rdmsrEvents_gen, filter_executes_eq p g l hl]

theorem length_filter_ne_range (N b : Nat) (hb : b < N) :
    ((List.range N).filter (fun k => decide (k ≠ b))).length = N - 1 := by
  have h1 := List.length_eq_countP_add_countP (fun k => decide (k ≠ b)) (List.range N)
  have h2 : List.countP (fun a => decide ¬ (decide (a ≠ b) = true)) (List.range N) = 1 := by
    have : (fun a => decide ¬ (decide (a ≠ b) = true)) = (fun a => a == b) := by
      funext a; by_cases h : a = b <;> simp [h]
    rw [this, ← List.count_eq_countP]
    exact List.count_eq_one_of_mem (List.nodup_range N) (List.mem_range.mpr hb)
  rw [← List.countP_eq_length_filter]
  rw [List.length_range] at h1
  omega

/-! ### The six blocks of the dispatcher, one opcode at a time -/

theorem UefiToolRoutine_rdmsr_index (p : Platform) (g : Globals) (ctx : UEFI_TOOL_CONTEXT)
    (s : State) :
    UefiToolRoutine p g ctx (OPCODE_RDMSR_BIT ||| OPCODE_PROCESSOR_INDEX_BIT) s =
      rdmsrOn p g ctx ctx.ProcessorIndex s := by
  simp [UefiToolRoutine, OPCODE_RDMSR_BIT, OPCODE_WRMSR_BIT, OPCODE_CPUID_BIT,
    OPCODE_ALLPROCESSOR_BIT, OPCODE_PROCESSOR_INDEX_BIT]

theorem UefiToolRoutine_cpuid_index (p : Platform) (g : Globals) (ctx : UEFI_TOOL_CONTEXT)
    (s : State) :
    UefiToolRoutine p g ctx (OPCODE_CPUID_BIT ||| OPCODE_PROCESSOR_INDEX_BIT) s =
      cpuidOn p g ctx ctx.ProcessorIndex s := by
  simp [UefiToolRoutine, OPCODE_RDMSR_BIT, OPCODE_WRMSR_BIT, OPCODE_CPUID_BIT,
    OPCODE_ALLPROCESSOR_BIT, OPCODE_PROCESSOR_INDEX_BIT]

theorem UefiToolRoutine_rdmsr_all (p : Platform) (g : Globals) (ctx : UEFI_TOOL_CONTEXT)
    (s : State) :
    UefiToolRoutine p g ctx (OPCODE_RDMSR_BIT ||| OPCODE_ALLPROCESSOR_BIT) s =
      rdmsrSweep p g ctx g.mProcessorNum 0 s := by
  simp [UefiToolRoutine, OPCODE_RDMSR_BIT, OPCODE_WRMSR_BIT, OPCODE_CPUID_BIT,
    OPCODE_ALLPROCESSOR_BIT, OPCODE_PROCESSOR_INDEX_BIT]

theorem UefiToolRoutine_other (p : Platform) (g : Globals) (ctx : UEFI_TOOL_CONTEXT)
    (Opcode : Nat) (s : State)
    (h1 : Opcode ≠ OPCODE_RDMSR_BIT) (h2 : Opcode ≠ OPCODE_WRMSR_BIT)
    (h3 : Opcode ≠ OPCODE_CPUID_BIT)
    (h4 : Opcode ≠ OPCODE_RDMSR_BIT ||| OPCODE_PROCESSOR_INDEX_BIT)
    (h5 : Opcode ≠ OPCODE_CPUID_BIT ||| OPCODE_PROCESSOR_INDEX_BIT)
    (h6 : Opcode ≠ OPCODE_RDMSR_BIT ||| OPCODE_ALLPROCESSOR_BIT) :
    UefiToolRoutine p g ctx Opcode s = .ok s := by
  simp [UefiToolRoutine, h1, h2, h3, h4, h5, h6]
  rfl

theorem rdmsrSweep_all (p : Platform) {g : Globals} (h : g.Discovered) (ctx : UEFI_TOOL_CONTEXT)
    (s : State) :
    UefiToolRoutine p g ctx (OPCODE_RDMSR_BIT ||| OPCODE_ALLPROCESSOR_BIT) s =
      .ok ⟨s.msr, s.trace ++ (List.range g.mProcessorNum).flatMap (rdmsrEvents p g ctx s.msr)⟩ := by
  rw [UefiToolRoutine_rdmsr_all, rdmsrSweep_eq p h ctx g.mProcessorNum 0 s (by omega),
    List.range_eq_range']

/-! ### Discovery -/

theorem fillLocBuf_ok (p : Platform) (Num : Nat)
    (hinfo : ∀ k, k < Num → EFI_ERROR (p.GetProcessorInfo k).1 = false) :
    ∀ (fuel Index : Nat) (acc : List EFI_PROCESSOR_INFORMATION), Index + fuel = Num →
      fillLocBuf p Num fuel Index acc =
        (EFI_SUCCESS, some (acc ++ (List.range' Index fuel).map
          (fun k => (p.GetProcessorInfo k).2))) := by
  intro fuel
  induction fuel with
  | zero => intro Index acc _; simp [fillLocBuf]
  | succ n ih =>
    intro Index acc hN
    have hk : Index < Num := by omega
    simp only [fillLocBuf, hk, if_true, hinfo Index hk]
    rw [ih (Index + 1) _ (by omega)]
    simp [List.range'_succ]

/-- When every service call of `GetProcessorsCpuLocation` succeeds and the
firmware names one of its processors as the caller, the globals it leaves are a
discovered topology: one descriptor per processor, as `GetProcessorInfo` gave
them, and the boot index that `WhoAmI` gave. -/
theorem discover_discovered (p : Platform)
    (h1 : EFI_ERROR p.LocateProtocol = false)
    (h2 : EFI_ERROR p.GetNumberOfProcessors.1 = false)
    (h3 : EFI_ERROR p.AllocatePool = false)
    (h4 : ∀ k, k < p.GetNumberOfProcessors.2 → EFI_ERROR (p.GetProcessorInfo k).1 = false)
    (h5 : EFI_ERROR p.WhoAmI.1 = false)
    (h6 : p.WhoAmI.2 < p.GetNumberOfProcessors.2) :
    (GetProcessorsCpuLocation p Globals.zero).1 = p.WhoAmI.1 ∧
    (discover p).Discovered ∧
    (discover p).mProcessorNum = p.GetNumberOfProcessors.2 ∧
    (discover p).mBspIndex = p.WhoAmI.2 ∧
    ∀ k, k < p.GetNumberOfProcessors.2 → (discover p).descriptor k = (p.GetProcessorInfo k).2 := by
  have hf := fillLocBuf_ok p p.GetNumberOfProcessors.2 h4 p.GetNumberOfProcessors.2 0 []
    (by omega)
  have hg : GetProcessorsCpuLocation p Globals.zero =
      (p.WhoAmI.1,
        { mMpService := true
          mProcessorLocBuf := some ((List.range' 0 p.GetNumberOfProcessors.2).map
            (fun k => (p.GetProcessorInfo k).2))
          mProcessorNum := p.GetNumberOfProcessors.2
          mBspIndex := p.WhoAmI.2 }) := by
    simp [GetProcessorsCpuLocation, h1, h2, h3, h5, hf, Globals.zero]
  refine ⟨by rw [hg], ?_, by rw [discover, hg], by rw [discover, hg], ?_⟩
  · rw [discover, hg]
    exact ⟨rfl, h6, by simp⟩
  · intro k hk
    rw [discover, hg]
    simp [Globals.descriptor, List.getD_eq_getElem?_getD, hk]

/-! ### A request for a processor other than the boot processor -/

theorem rdmsrOn_rejected (p : Platform) (g : Globals) (ctx : UEFI_TOOL_CONTEXT) (s : State)
    (k : Nat) (hmp : g.mMpService = true) (hb : k ≠ g.mBspIndex)
    (he : EFI_ERROR (p.StartupThisAP k) = true) :
    rdmsrOn p g ctx k s = .ok ⟨s.msr, s.trace ++ [.StartupThisAP .ApUtReadMsr k]⟩ := by
  simp [rdmsrOn, hb, he, StartupThisAP, hmp, State.emit, Except.map]

theorem cpuidOn_rejected (p : Platform) (g : Globals) (ctx : UEFI_TOOL_CONTEXT) (s : State)
    (k : Nat) (hmp : g.mMpService = true) (hb : k ≠ g.mBspIndex)
    (he : EFI_ERROR (p.StartupThisAP k) = true) :
    cpuidOn p g ctx k s = .ok ⟨s.msr, s.trace ++ [.StartupThisAP .ApUtReadCpuId k]⟩ := by
  simp [cpuidOn, hb, he, StartupThisAP, hmp, State.emit, Except.map]

theorem locBufAt_error_trace {g : Globals} {k : Nat} {s : State} {f : Fault × List Event}
    (hl : locBufAt g k s = .error f) : f.2 = s.trace := by
  unfold locBufAt at hl
  split at hl
  · simp at hl; rw [← hl]
  · split at hl
    · simp at hl; rw [← hl]
    · simp at hl

theorem rdmsrOn_remote (p : Platform) (g : Globals) (ctx : UEFI_TOOL_CONTEXT) (s : State)
    (k : Nat) (hmp : g.mMpService = true) (hb : k ≠ g.mBspIndex) :
    ∃ t, (rdmsrOn p g ctx k s).trace = s.trace ++ t ∧
      remoteCalls t = [(.ApUtReadMsr, k)] ∧
      ∀ e ∈ primitives t, e = .AsmReadMsr64 (.AP k) ctx.MsrIndex := by
  by_cases he : EFI_ERROR (p.StartupThisAP k) = true
  · refine ⟨[.StartupThisAP .ApUtReadMsr k], ?_, ?_, ?_⟩
    · rw [rdmsrOn_rejected p g ctx s k hmp hb he]; rfl
    · simp [remoteCalls]
    · simp [primitives]
  · cases hl : locBufAt g k
        ⟨s.msr, s.trace ++ [.StartupThisAP .ApUtReadMsr k, .AsmReadMsr64 (.AP k) ctx.MsrIndex]⟩ with
    | error f =>
      refine ⟨[.StartupThisAP .ApUtReadMsr k, .AsmReadMsr64 (.AP k) ctx.MsrIndex], ?_, ?_, ?_⟩
      · have hf := locBufAt_error_trace hl
        simp at hf
        simp [rdmsrOn, hb, he, StartupThisAP, hmp, Except.map, ApUtReadMsr, hl, bind,
          Except.bind, Outcome.trace, hf, State.emit, AsmReadMsr64]
      · simp [remoteCalls]
      · simp [primitives]
    | ok d =>
      refine ⟨[.StartupThisAP .ApUtReadMsr k, .AsmReadMsr64 (.AP k) ctx.MsrIndex,
        .Print (.RdMsrProc ctx.MsrIndex k d.Location.Package d.Location.Core
          d.Location.Thread (s.msr (.AP k) ctx.MsrIndex % 2 ^ 64))], ?_, ?_, ?_⟩
      · simp [rdmsrOn, hb, he, StartupThisAP, hmp, Except.map, ApUtReadMsr, hl, bind,
          Except.bind, Outcome.trace, pure, Except.pure, Print, State.emit, AsmReadMsr64]
      · simp [remoteCalls]
      · simp [primitives]

theorem cpuidOn_remote (p : Platform) (g : Globals) (ctx : UEFI_TOOL_CONTEXT) (s : State)
    (k : Nat) (hmp : g.mMpService = true) (hb : k ≠ g.mBspIndex) :
    ∃ t, (cpuidOn p g ctx k s).trace = s.trace ++ t ∧
      remoteCalls t = [(.ApUtReadCpuId, k)] ∧
      ∀ e ∈ primitives t, e = .AsmCpuidEx (.AP k) ctx.CpuIdIndex ctx.CpuIdSubIndex := by
  by_cases he : EFI_ERROR (p.StartupThisAP k) = true
  · refine ⟨[.StartupThisAP .ApUtReadCpuId k], ?_, ?_, ?_⟩
    · rw [cpuidOn_rejected p g ctx s k hmp hb he]; rfl
    · simp [remoteCalls]
    · simp [primitives]
  · cases hl : locBufAt g k
        ⟨s.msr, s.trace ++ [.StartupThisAP .ApUtReadCpuId k,
          .AsmCpuidEx (.AP k) ctx.CpuIdIndex ctx.CpuIdSubIndex]⟩ with
    | error f =>
      refine ⟨[.StartupThisAP .ApUtReadCpuId k,
        .AsmCpuidEx (.AP k) ctx.CpuIdIndex ctx.CpuIdSubIndex], ?_, ?_, ?_⟩
      · have hf := locBufAt_error_trace hl
        simp at hf
        simp [cpuidOn, hb, he, StartupThisAP, hmp, Except.map, ApUtReadCpuId, hl, bind,
          Except.bind, Outcome.trace, hf, State.emit, AsmCpuidEx]
      · simp [remoteCalls]
      · simp [primitives]
    | ok d =>
      refine ⟨[.StartupThisAP .ApUtReadCpuId k,
        .AsmCpuidEx (.AP k) ctx.CpuIdIndex ctx.CpuIdSubIndex,
        .Print (.CpuIdProc d.Location.Package d.Location.Core d.Location.Thread
          ctx.CpuIdIndex ctx.CpuIdSubIndex),
        .Print (.Reg .EAX ((p.Cpuid (.AP k) ctx.CpuIdIndex ctx.CpuIdSubIndex).Eax % 2 ^ 32)),
        .Print (.Reg .EBX ((p.Cpuid (.AP k) ctx.CpuIdIndex ctx.CpuIdSubIndex).Ebx % 2 ^ 32)),
        .Print (.Reg .ECX ((p.Cpuid (.AP k) ctx.CpuIdIndex ctx.CpuIdSubIndex).Ecx % 2 ^ 32)),
        .Print (.Reg .EDX ((p.Cpuid (.AP k) ctx.CpuIdIndex ctx.CpuIdSubIndex).Edx % 2 ^ 32))],
        ?_, ?_, ?_⟩
      · simp [cpuidOn, hb, he, StartupThisAP, hmp, Except.map, ApUtReadCpuId, hl, bind,
          Except.bind, Outcome.trace, pure, Except.pure, Print, State.emit, AsmCpuidEx]
      · simp [remoteCalls]
      · simp [primitives]

theorem cpuidOn_eq (p : Platform) {g : Globals} (h : g.Discovered) (ctx : UEFI_TOOL_CONTEXT)
    {k : Nat} (hk : k < g.mProcessorNum) (s : State) :
    cpuidOn p g ctx k s = .ok ⟨s.msr, s.trace ++ cpuidEvents p g ctx k⟩ := by
  have hmp : g.mMpService = true := h.1
  by_cases hb : k = g.mBspIndex
  · simp [cpuidOn, cpuidEvents, cpuidLines, hb, locBufAt_ok h (hb ▸ hk), AsmCpuidEx, Print,
      State.emit, bind, Except.bind, pure, Except.pure]
  · by_cases he : EFI_ERROR (p.StartupThisAP k) = true
    · simp [cpuidOn, cpuidEvents, hb, he, StartupThisAP, hmp, State.emit, Except.map]
    · simp [cpuidOn, cpuidEvents, cpuidLines, hb, he, StartupThisAP, hmp, State.emit, Except.map,
        ApUtReadCpuId, locBufAt_ok h hk, AsmCpuidEx, Print, bind, Except.bind, pure, Except.pure]

/-! ### The three blocks that run in place -/

theorem UefiToolRoutine_rdmsr (p : Platform) (g : Globals) (ctx : UEFI_TOOL_CONTEXT)
    (s : State) :
    UefiToolRoutine p g ctx OPCODE_RDMSR_BIT s =
      .ok ⟨s.msr, s.trace ++ [.AsmReadMsr64 .Caller ctx.MsrIndex,
        .Print (.RdMsr ctx.MsrIndex (s.msr .Caller ctx.MsrIndex % 2 ^ 64))]⟩ := by
  simp [UefiToolRoutine, OPCODE_RDMSR_BIT, OPCODE_WRMSR_BIT, OPCODE_CPUID_BIT,
    OPCODE_ALLPROCESSOR_BIT, OPCODE_PROCESSOR_INDEX_BIT, AsmReadMsr64, Print, State.emit]
  rfl

theorem UefiToolRoutine_wrmsr (p : Platform) (g : Globals) (ctx : UEFI_TOOL_CONTEXT)
    (s : State) :
    UefiToolRoutine p g ctx OPCODE_WRMSR_BIT s =
      .ok ⟨fun c i => if c = .Caller ∧ i = ctx.MsrIndex then ctx.MsrValue else s.msr c i,
        s.trace ++ [.AsmWriteMsr64 .Caller ctx.MsrIndex ctx.MsrValue,
          .Print (.WrMsr ctx.MsrValue ctx.MsrIndex)]⟩ := by
  simp [UefiToolRoutine, OPCODE_RDMSR_BIT, OPCODE_WRMSR_BIT, OPCODE_CPUID_BIT,
    OPCODE_ALLPROCESSOR_BIT, OPCODE_PROCESSOR_INDEX_BIT, AsmWriteMsr64, Print, State.emit]
  rfl

theorem UefiToolRoutine_cpuid (p : Platform) (g : Globals) (ctx : UEFI_TOOL_CONTEXT)
    (s : State) :
    UefiToolRoutine p g ctx OPCODE_CPUID_BIT s =
      .ok ⟨s.msr, s.trace ++ [.AsmCpuidEx .Caller ctx.CpuIdIndex ctx.CpuIdSubIndex,
        .Print (.CpuId ctx.CpuIdIndex ctx.CpuIdSubIndex),
        .Print (.Reg .EAX ((p.Cpuid .Caller ctx.CpuIdIndex ctx.CpuIdSubIndex).Eax % 2 ^ 32)),
        .Print (.Reg .EBX ((p.Cpuid .Caller ctx.CpuIdIndex ctx.CpuIdSubIndex).Ebx % 2 ^ 32)),
        .Print (.Reg .ECX ((p.Cpuid .Caller ctx.CpuIdIndex ctx.CpuIdSubIndex).Ecx % 2 ^ 32)),
        .Print (.Reg .EDX ((p.Cpuid .Caller ctx.CpuIdIndex ctx.CpuIdSubIndex).Edx % 2 ^ 32))]⟩ := by
  simp [UefiToolRoutine, OPCODE_RDMSR_BIT, OPCODE_WRMSR_BIT, OPCODE_CPUID_BIT,
    OPCODE_ALLPROCESSOR_BIT, OPCODE_PROCESSOR_INDEX_BIT, AsmCpuidEx, Print, State.emit]
  rfl

/-! ### The token loop -/

theorem ToUpper_of_lower (a : Nat) (h : 97 ≤ a ∧ a ≤ 122) : ToUpper a = a - 32 := by
  unfold ToUpper
  rw [if_pos h]
  have : a - 0x20 < 2 ^ 16 := by
    have : (2 : Nat) ^ 16 = 65536 := by norm_num
    omega
  exact Nat.mod_eq_of_lt this

theorem ToUpper_of_not_lower (a : Nat) (h : ¬ (97 ≤ a ∧ a ≤ 122)) : ToUpper a = a := by
  unfold ToUpper
  rw [if_neg h]

theorem ToUpper_idem (a : Nat) : ToUpper (ToUpper a) = ToUpper a := by
  by_cases h : 97 ≤ a ∧ a ≤ 122
  · rw [ToUpper_of_lower a h]
    exact ToUpper_of_not_lower _ (by omega)
  · rw [ToUpper_of_not_lower a h, ToUpper_of_not_lower a h]

theorem ToUpper_ne_zero (a : Nat) (h : a ≠ 0) : ToUpper a ≠ 0 := by
  by_cases hl : 97 ≤ a ∧ a ≤ 122
  · rw [ToUpper_of_lower a hl]; omega
  · rw [ToUpper_of_not_lower a hl]; exact h

theorem StrUpr_idem (str : List Nat) : StrUpr (StrUpr str) = StrUpr str := by
  induction str with
  | nil => rfl
  | cons c cs ih =>
    by_cases hc : c = 0
    · simp [StrUpr, hc]
    · simp [StrUpr, hc, ToUpper_ne_zero c hc, ToUpper_idem, ih]

/-- With 256 tokens or more the 8-bit index can never pass the count: the loop
has not ended after any number of iterations. -/
theorem scanArgs_diverges (p : Platform) (Argc : Nat) (hA : 256 ≤ Argc) :
    ∀ (fuel : Nat) (Argv : List (List Nat)) (Index Opcode : Nat) (ctx : UEFI_TOOL_CONTEXT),
      Index < 256 → scanArgs p Argc fuel Argv Index Opcode ctx = none := by
  intro fuel
  induction fuel with
  | zero => intro Argv Index Opcode ctx _; rfl
  | succ n ih =>
    intro Argv Index Opcode ctx hI
    have hlt : ∀ k, (Index + k) % 2 ^ 8 < 256 := fun k => Nat.mod_lt _ (by norm_num)
    have hc : ¬ (Index + 1 > Argc) := by omega
    simp only [scanArgs, hc, if_false]
    split_ifs <;> exact ih _ _ _ _ (hlt _)

/-- With at most 255 tokens the index never wraps, and the loop has ended
within `Argc - Index + 1` evaluations of its exit test. -/
theorem scanArgs_terminates (p : Platform) (Argc : Nat) (hA : Argc ≤ 255) :
    ∀ (fuel : Nat) (Argv : List (List Nat)) (Index Opcode : Nat) (ctx : UEFI_TOOL_CONTEXT),
      Argc - Index < fuel →
      ∃ r, scanArgs p Argc fuel Argv Index Opcode ctx = some r := by
  intro fuel
  induction fuel with
  | zero => intro Argv Index Opcode ctx h; omega
  | succ n ih =>
    intro Argv Index Opcode ctx hf
    by_cases hc : Index + 1 > Argc
    · exact ⟨(Opcode, ctx), by simp only [scanArgs, hc, if_true]⟩
    · have h8 : (2 : Nat) ^ 8 = 256 := by norm_num
      simp only [scanArgs, hc, if_false]
      split_ifs with h1 h2 h3 h4 h5
      · have : (Index + 2) % 2 ^ 8 = Index + 2 := Nat.mod_eq_of_lt (by omega)
        rw [this]; exact ih _ _ _ _ (by omega)
      · have : (Index + 3) % 2 ^ 8 = Index + 3 := Nat.mod_eq_of_lt (by omega)
        rw [this]; exact ih _ _ _ _ (by omega)
      · have : (Index + 3) % 2 ^ 8 = Index + 3 := Nat.mod_eq_of_lt (by omega)
        rw [this]; exact ih _ _ _ _ (by omega)
      · have : (Index + 1) % 2 ^ 8 = Index + 1 := Nat.mod_eq_of_lt (by omega)
        rw [this]; exact ih _ _ _ _ (by omega)
      · have : (Index + 2) % 2 ^ 8 = Index + 2 := Nat.mod_eq_of_lt (by omega)
        rw [this]; exact ih _ _ _ _ (by omega)
      · have : (Index + 1) % 2 ^ 8 = Index + 1 := Nat.mod_eq_of_lt (by omega)
        rw [this]; exact ih _ _ _ _ (by omega)

theorem getD_set_self_StrUpr (A : List (List Nat)) (k : Nat) :
    (A.set k (StrUpr (A.getD k []))).getD k [] = StrUpr (A.getD k []) := by
  by_cases hk : k < A.length
  · simp [List.getD_eq_getElem?_getD, List.getElem?_set, hk]
  · have hk2 : A.length ≤ k := by omega
    simp [List.getD_eq_getElem?_getD, List.getElem?_set, hk, List.getElem?_eq_none hk2, StrUpr]

theorem getD_set_StrUpr (A : List (List Nat)) (k i : Nat) :
    StrUpr ((A.set k (StrUpr (A.getD k []))).getD i []) = StrUpr (A.getD i []) := by
  by_cases hik : i = k
  · subst hik
    rw [getD_set_self_StrUpr, StrUpr_idem]
  · have : (A.set k (StrUpr (A.getD k []))).getD i [] = A.getD i [] := by
      simp [List.getD_eq_getElem?_getD, List.getElem?_set, Ne.symm hik]
    rw [this]

theorem SameUpToCase_set {A B : List (List Nat)} (h : SameUpToCase A B) (k : Nat) :
    SameUpToCase (A.set k (StrUpr (A.getD k []))) (B.set k (StrUpr (B.getD k []))) := by
  refine ⟨by simpa using h.1, fun i => ?_⟩
  rw [getD_set_StrUpr, getD_set_StrUpr]
  exact h.2 i

/-- The token loop does not see the case of letters, when the hexadecimal
conversion does not. -/
theorem scanArgs_case (p : Platform)
    (hhex : ∀ a b, StrUpr a = StrUpr b → p.StrHexToUintn a = p.StrHexToUintn b) (Argc : Nat) :
    ∀ (fuel : Nat) (A B : List (List Nat)), SameUpToCase A B →
      ∀ (Index Opcode : Nat) (ctx : UEFI_TOOL_CONTEXT),
        scanArgs p Argc fuel A Index Opcode ctx = scanArgs p Argc fuel B Index Opcode ctx := by
  intro fuel
  induction fuel with
  | zero => intro A B _ Index Opcode ctx; rfl
  | succ n ih =>
    intro A B hAB Index Opcode ctx
    have hR := SameUpToCase_set hAB Index
    have htok : (A.set Index (StrUpr (A.getD Index []))).getD Index [] =
        (B.set Index (StrUpr (B.getD Index []))).getD Index [] := by
      rw [getD_set_self_StrUpr, getD_set_self_StrUpr]; exact hAB.2 Index
    have h1 : p.StrHexToUintn ((A.set Index (StrUpr (A.getD Index []))).getD (Index + 1) []) =
        p.StrHexToUintn ((B.set Index (StrUpr (B.getD Index []))).getD (Index + 1) []) :=
      hhex _ _ (hR.2 (Index + 1))
    have h2 : p.StrHexToUintn ((A.set Index (StrUpr (A.getD Index []))).getD (Index + 2) []) =
        p.StrHexToUintn ((B.set Index (StrUpr (B.getD Index []))).getD (Index + 2) []) :=
      hhex _ _ (hR.2 (Index + 2))
    simp only [scanArgs, htok, h1, h2, ih _ _ hR]

theorem ShellAppMain_case (p : Platform)
    (hhex : ∀ a b, StrUpr a = StrUpr b → p.StrHexToUintn a = p.StrHexToUintn b)
    {A B : List (List Nat)} (h : SameUpToCase A B) (fuel : Nat) (s : State) :
    ShellAppMain p fuel A s = ShellAppMain p fuel B s := by
  simp only [ShellAppMain, h.1, h.2 1, scanArgs_case p hhex _ fuel A B h]

/-- Putting a case variant of a token in its place gives a vector that
differs at most in the case of letters. -/
theorem SameUpToCase_replace (A : List (List Nat)) (k : Nat) (v : List Nat)
    (hv : StrUpr v = StrUpr (A.getD k [])) : SameUpToCase (A.set k v) A := by
  refine ⟨by simp, fun i => ?_⟩
  by_cases hik : i = k
  · subst hik
    by_cases hk : i < A.length
    · simp [List.getD_eq_getElem?_getD, List.getElem?_set, hk] at hv ⊢
      exact hv
    · have hk2 : A.length ≤ i := by omega
      simp [List.getD_eq_getElem?_getD, List.getElem?_set, hk, List.getElem?_eq_none hk2]
  · simp [List.getD_eq_getElem?_getD, List.getElem?_set, Ne.symm hik]

theorem hexDigitValue_ToUpper (c : Nat) : hexDigitValue (ToUpper c) = hexDigitValue c := by
  by_cases h : 97 ≤ c ∧ c ≤ 122
  · rw [ToUpper_of_lower c h]
    unfold hexDigitValue
    split_ifs <;> omega
  · rw [ToUpper_of_not_lower c h]

theorem foldl_hex_case (f : Nat → Nat → Nat)
    (hf : ∀ v c, f v (ToUpper c) = f v c) :
    ∀ (a b : List Nat) (v : Nat), StrUpr a = StrUpr b → a.foldl f v = b.foldl f v := by
  intro a
  induction a with
  | nil =>
    intro b v h
    cases b with
    | nil => rfl
    | cons y ys =>
      by_cases hy : y = 0 <;> simp [StrUpr, hy] at h
  | cons x xs ih =>
    intro b v h
    cases b with
    | nil => by_cases hx : x = 0 <;> simp [StrUpr, hx] at h
    | cons y ys =>
      by_cases hx : x = 0
      · by_cases hy : y = 0
        · simp [StrUpr, hx, hy] at h
          simp [hx, hy, h]
        · simp [StrUpr, hx, hy] at h
          exact absurd h.1.symm (ToUpper_ne_zero y hy)
      · by_cases hy : y = 0
        · simp [StrUpr, hx, hy] at h
          exact absurd h.1 (ToUpper_ne_zero x hx)
        · simp [StrUpr, hx, hy] at h
          have hxy : f v x = f v y := by rw [← hf v x, ← hf v y, h.1]
          simp only [List.foldl_cons, hxy]
          exact ih ys _ h.2

theorem examplePlatform_hex_case (mp : EFI_STATUS) (n b : Nat) (startup : Nat → EFI_STATUS) :
    ∀ x y, StrUpr x = StrUpr y →
      (examplePlatform mp n b startup).StrHexToUintn x =
        (examplePlatform mp n b startup).StrHexToUintn y :=
  fun x y h => foldl_hex_case _ (fun v c => by simp only [hexDigitValue_ToUpper]) x y 0 h

theorem NoOperationKeyword_set {Argc : Nat} {A : List (List Nat)}
    (h : NoOperationKeyword Argc A) (k : Nat) :
    NoOperationKeyword Argc (A.set k (StrUpr (A.getD k []))) := by
  intro i
  rw [getD_set_StrUpr]
  exact h i

/-- When no operation keyword stands in the vector, the loop sets no
operation bit: from an opcode made of target bits only it can only return an
opcode made of target bits only. -/
theorem scanArgs_no_keyword (p : Platform) (Argc : Nat) :
    ∀ (fuel : Nat) (A : List (List Nat)) (Index Opcode : Nat) (ctx : UEFI_TOOL_CONTEXT)
      (r : Nat × UEFI_TOOL_CONTEXT),
      NoOperationKeyword Argc A →
      (Opcode = 0 ∨ Opcode = 8 ∨ Opcode = 16 ∨ Opcode = 24) →
      scanArgs p Argc fuel A Index Opcode ctx = some r →
      (r.1 = 0 ∨ r.1 = 8 ∨ r.1 = 16 ∨ r.1 = 24) ∧ r.2 = { ctx with ProcessorIndex := r.2.ProcessorIndex } := by
  intro fuel
  induction fuel with
  | zero => intro A Index Opcode ctx r _ _ h; simp [scanArgs] at h
  | succ n ih =>
    intro A Index Opcode ctx r hN hO h
    have hN2 := NoOperationKeyword_set hN Index
    simp only [scanArgs] at h
    split_ifs at h with hc h1 h2 h3 h4 h5
    · simp only [Option.some.injEq] at h
      subst h
      exact ⟨hO, rfl⟩
    · rw [getD_set_self_StrUpr] at h1
      exact absurd h1.2 ((hN Index).1 h1.1)
    · rw [getD_set_self_StrUpr] at h2
      exact absurd h2.2 ((hN Index).2 h2.1).1
    · rw [getD_set_self_StrUpr] at h3
      exact absurd h3.2 ((hN Index).2 h3.1).2
    · refine ih _ _ _ _ r hN2 ?_ h
      rcases hO with rfl | rfl | rfl | rfl <;> decide
    · have := ih _ _ _ _ r hN2 (by rcases hO with rfl | rfl | rfl | rfl <;> decide) h
      exact ⟨this.1, by rw [this.2]⟩
    · exact ih _ _ _ _ r hN2 hO h

/-- With 3 to 255 tokens none of which is an operation keyword, the run ends,
the dispatcher is handed an opcode without operation bit and does nothing:
only the banner is printed and 0 is returned. -/
theorem ShellAppMain_no_keyword (p : Platform) (Argv : List (List Nat)) (fuel : Nat) (s : State)
    (h3 : 3 ≤ Argv.length) (h255 : Argv.length ≤ 255) (hfuel : Argv.length ≤ fuel)
    (hN : NoOperationKeyword Argv.length Argv) :
    ∃ Opcode ctx, scanArgs p Argv.length fuel Argv 1 0 ⟨0, 0, 0, 0, 0⟩ = some (Opcode, ctx) ∧
      (Opcode = 0 ∨ Opcode = 8 ∨ Opcode = 16 ∨ Opcode = 24) ∧
      UefiToolRoutine p (discover p) ctx Opcode (Print (.Banner 1) (Print (.Banner 0) s)) =
        .ok (Print (.Banner 1) (Print (.Banner 0) s)) ∧
      ShellAppMain p fuel Argv s = some (.ok (0, Print (.Banner 1) (Print (.Banner 0) s))) := by
  obtain ⟨r, hr⟩ := scanArgs_terminates p Argv.length h255 fuel Argv 1 0 ⟨0, 0, 0, 0, 0⟩
    (by omega)
  have hO := (scanArgs_no_keyword p Argv.length fuel Argv 1 0 _ r hN (Or.inl rfl) hr).1
  have hU : ∀ s2, UefiToolRoutine p (discover p) r.2 r.1 s2 = .ok s2 := by
    intro s2
    rcases hO with h | h | h | h <;> rw [h] <;>
      exact UefiToolRoutine_other p _ _ _ s2 (by decide) (by decide) (by decide) (by decide)
        (by decide) (by decide)
  refine ⟨r.1, r.2, hr, hO, hU _, ?_⟩
  have h1 : Argv.length ≠ 1 := by omega
  have h2 : Argv.length ≠ 2 := by omega
  simp only [ShellAppMain, h1, h2, if_false, hr]
  rw [show (GetProcessorsCpuLocation p Globals.zero).2 = discover p from rfl, hU]
  rfl

theorem getD_replicate_nil (n i : Nat) (x : List Nat) :
    (List.replicate n x).getD i [] = x ∨ (List.replicate n x).getD i [] = [] := by
  by_cases hi : i < n
  · left; simp [List.getD_eq_getElem?_getD, List.getElem?_replicate, hi]
  · right; simp [List.getD_eq_getElem?_getD, List.getElem?_replicate, hi]

/-! ### What a record reports -/

theorem records_rdmsrEvents (p : Platform) (g : Globals) (ctx : UEFI_TOOL_CONTEXT)
    (msr : Site → Nat → Nat) (k : Nat) :
    records (rdmsrEvents p g ctx msr k) =
      if executes p g k then
        [{ ProcNum := some k, Location := some (g.descriptor k).Location,
           Fields := [msr (readSite g k) ctx.MsrIndex % 2 ^ 64] }]
      else [] := by
  by_cases hb : k = g.mBspIndex
  · simp [rdmsrEvents, rdmsrLine, records, recordsAux, readSite, executes, hb]
  · by_cases he : EFI_ERROR (p.StartupThisAP k) = true <;>
      simp [rdmsrEvents, rdmsrLine, records, recordsAux, readSite, executes, hb, he]

theorem records_cpuidEvents (p : Platform) (g : Globals) (ctx : UEFI_TOOL_CONTEXT) (k : Nat) :
    records (cpuidEvents p g ctx k) =
      if executes p g k then
        [{ ProcNum := none, Location := some (g.descriptor k).Location,
           Fields := cpuidFields p ctx (readSite g k) }]
      else [] := by
  by_cases hb : k = g.mBspIndex
  · simp [cpuidEvents, cpuidLines, records, recordsAux, readSite, executes, cpuidFields, hb]
  · by_cases he : EFI_ERROR (p.StartupThisAP k) = true <;>
      simp [cpuidEvents, cpuidLines, records, recordsAux, readSite, executes, cpuidFields, hb, he]

/-! ### Which processors of a sweep are read -/

theorem mem_filter_executes (p : Platform) (g : Globals) (N k : Nat) :
    k ∈ (List.range N).filter (executes p g) ↔
      k < N ∧ (k = g.mBspIndex ∨ EFI_ERROR (p.StartupThisAP k) = false) := by
  simp [List.mem_filter, executes]

theorem readEvent_injective (g : Globals) (Index : Nat) :
    Function.Injective (fun k => Event.AsmReadMsr64 (readSite g k) Index) := by
  intro a c hac
  simp only [Event.AsmReadMsr64.injEq, and_true] at hac
  unfold readSite at hac
  split_ifs at hac with ha hc
  · rw [ha, hc]
  · exact Site.AP.inj hac

/-! ## The claims -/

/-- C1: on a discovered topology, `RDMSR | PROCESSOR_INDEX` with `ProcessorIndex`
equal to the boot index reads the register in place and makes no call to
`StartupThisAP`; with any other `ProcessorIndex` it makes exactly one call, to
that index with the read procedure, and runs no primitive in place. -/
theorem C1_rdmsr_specific (p : Platform) (g : Globals) (ctx : UEFI_TOOL_CONTEXT) (s : State)
    (h : g.Discovered) :
    (ctx.ProcessorIndex = g.mBspIndex →
      ∃ t, UefiToolRoutine p g ctx (OPCODE_RDMSR_BIT ||| OPCODE_PROCESSOR_INDEX_BIT) s =
          .ok ⟨s.msr, s.trace ++ t⟩ ∧
        remoteCalls t = [] ∧
        primitives t = [.AsmReadMsr64 .Caller ctx.MsrIndex] ∧
        records t = [{ ProcNum := some g.mBspIndex,
                       Location := some (g.descriptor g.mBspIndex).Location,
                       Fields := [s.msr .Caller ctx.MsrIndex % 2 ^ 64] }]) ∧
    (ctx.ProcessorIndex ≠ g.mBspIndex →
      ∃ t, (UefiToolRoutine p g ctx (OPCODE_RDMSR_BIT ||| OPCODE_PROCESSOR_INDEX_BIT) s).trace =
          s.trace ++ t ∧
        remoteCalls t = [(.ApUtReadMsr, ctx.ProcessorIndex)] ∧
        ∀ e ∈ primitives t, e = .AsmReadMsr64 (.AP ctx.ProcessorIndex) ctx.MsrIndex) := by
  have hmp : g.mMpService = true := h.1
  rw [UefiToolRoutine_rdmsr_index]
  constructor
  · intro hb
    refine ⟨rdmsrEvents p g ctx s.msr g.mBspIndex, ?_, ?_, ?_, ?_⟩
    · rw [hb]; exact rdmsrOn_eq p h ctx h.2.1 s
    · simp [rdmsrEvents, rdmsrLine, remoteCalls]
    · simp [rdmsrEvents, rdmsrLine, primitives]
    · simp [rdmsrEvents, rdmsrLine, records, recordsAux]
  · intro hb
    exact rdmsrOn_remote p g ctx s _ hmp hb

theorem C1_rdmsr_specific_witness :
    (exampleTopology 2 0).Discovered ∧
    (∃ t, UefiToolRoutine (examplePlatform EFI_SUCCESS 2 0 (fun _ => EFI_SUCCESS))
          (exampleTopology 2 0) (exampleContext 0)
          (OPCODE_RDMSR_BIT ||| OPCODE_PROCESSOR_INDEX_BIT) exampleState =
          .ok ⟨exampleState.msr, exampleState.trace ++ t⟩ ∧
        remoteCalls t = [] ∧
        primitives t = [.AsmReadMsr64 .Caller 0x10] ∧
        records t = [{ ProcNum := some 0, Location := some ⟨0, 0, 0⟩, Fields := [23] }]) ∧
    (∃ t, (UefiToolRoutine (examplePlatform EFI_SUCCESS 2 0 (fun _ => EFI_SUCCESS))
          (exampleTopology 2 0) (exampleContext 1)
          (OPCODE_RDMSR_BIT ||| OPCODE_PROCESSOR_INDEX_BIT) exampleState).trace =
          exampleState.trace ++ t ∧
        remoteCalls t = [(.ApUtReadMsr, 1)] ∧
        ∀ e ∈ primitives t, e = .AsmReadMsr64 (.AP 1) 0x10) :=
  ⟨by decide,
    (C1_rdmsr_specific (examplePlatform EFI_SUCCESS 2 0 (fun _ => EFI_SUCCESS))
      (exampleTopology 2 0) (exampleContext 0) exampleState (by decide)).1 rfl,
    (C1_rdmsr_specific (examplePlatform EFI_SUCCESS 2 0 (fun _ => EFI_SUCCESS))
      (exampleTopology 2 0) (exampleContext 1) exampleState (by decide)).2 (by decide)⟩

/-- C2 (as amended): on a discovered topology of `N` processors,
`RDMSR | ALLPROCESSOR` prints one record for the boot index and one for every
other index whose `StartupThisAP` call succeeds, and none for an index whose
call fails; the records come in strictly ascending index order and each
reports its own index `k` and the package, core and thread of descriptor `k`.
When every call succeeds these are exactly `N` records, for `0, 1, .., N-1`. -/
theorem C2_rdmsr_all_records (p : Platform) (g : Globals) (ctx : UEFI_TOOL_CONTEXT) (s : State)
    (h : g.Discovered) :
    ∃ t, UefiToolRoutine p g ctx (OPCODE_RDMSR_BIT ||| OPCODE_ALLPROCESSOR_BIT) s =
        .ok ⟨s.msr, s.trace ++ t⟩ ∧
      records t = ((List.range g.mProcessorNum).filter (executes p g)).map (fun k =>
        { ProcNum := some k, Location := some (g.descriptor k).Location,
          Fields := [s.msr (readSite g k) ctx.MsrIndex % 2 ^ 64] }) ∧
      (∀ k, k ∈ (List.range g.mProcessorNum).filter (executes p g) ↔
        k < g.mProcessorNum ∧ (k = g.mBspIndex ∨ EFI_ERROR (p.StartupThisAP k) = false)) ∧
      ((List.range g.mProcessorNum).filter (executes p g)).Pairwise (· < ·) ∧
      1 ≤ (records t).length ∧ (records t).length ≤ g.mProcessorNum ∧
      ((∀ k, k < g.mProcessorNum → k ≠ g.mBspIndex → EFI_ERROR (p.StartupThisAP k) = false) →
        records t = (List.range g.mProcessorNum).map (fun k =>
          { ProcNum := some k, Location := some (g.descriptor k).Location,
            Fields := [s.msr (readSite g k) ctx.MsrIndex % 2 ^ 64] }) ∧
        (records t).length = g.mProcessorNum) := by
  have hr := recordsAux_rdmsrEvents_gen p g ctx s.msr (List.range g.mProcessorNum)
  have hrec : records ((List.range g.mProcessorNum).flatMap (rdmsrEvents p g ctx s.msr)) =
      ((List.range g.mProcessorNum).filter (executes p g)).map (fun k =>
        { ProcNum := some k, Location := some (g.descriptor k).Location,
          Fields := [s.msr (readSite g k) ctx.MsrIndex % 2 ^ 64] }) := by
    rw [records, hr]
  refine ⟨_, rdmsrSweep_all p h ctx s, hrec, mem_filter_executes p g _,
    (List.pairwise_lt_range _).filter _, ?_, ?_, ?_⟩
  · rw [hrec, List.length_map]
    exact List.length_pos_of_mem
      ((mem_filter_executes p g _ g.mBspIndex).mpr ⟨h.2.1, Or.inl rfl⟩)
  · rw [hrec, List.length_map]
    exact (List.length_filter_le _ _).trans (by simp)
  · intro hap
    have hf := filter_executes_eq p g (List.range g.mProcessorNum)
      (fun k hk hb => hap k (List.mem_range.mp hk) hb)
    rw [hrec, hf]
    exact ⟨rfl, by simp⟩

theorem C2_rdmsr_all_records_witness :
    (discover (busyPlatform 4 1 2)).Discovered ∧
    ∃ t, UefiToolRoutine (busyPlatform 4 1 2) (discover (busyPlatform 4 1 2)) (exampleContext 0)
        (OPCODE_RDMSR_BIT ||| OPCODE_ALLPROCESSOR_BIT) exampleState =
        .ok ⟨exampleState.msr, exampleState.trace ++ t⟩ ∧
      records t =
        [{ ProcNum := some 0, Location := some ⟨0, 0, 0⟩, Fields := [23] },
          { ProcNum := some 1, Location := some ⟨0, 1, 0⟩, Fields := [23] },
          { ProcNum := some 3, Location := some ⟨0, 3, 0⟩, Fields := [23] }] :=
  ⟨by decide,
    (C2_rdmsr_all_records (busyPlatform 4 1 2) (discover (busyPlatform 4 1 2)) (exampleContext 0)
      exampleState (by decide)).imp (fun _ ht => ⟨ht.1, ht.2.1⟩)⟩

/-- C2, the claim as stated fails: two discovered processors, boot processor
0, and processor 1 does not answer `StartupThisAP`; `RDMSR | ALLPROCESSOR`
prints one record, for index 0, not two. -/
theorem C2_counterexample :
    (discover (busyPlatform 2 0 1)).Discovered ∧
    (discover (busyPlatform 2 0 1)).mProcessorNum = 2 ∧
    records (UefiToolRoutine (busyPlatform 2 0 1) (discover (busyPlatform 2 0 1))
        (exampleContext 0) (OPCODE_RDMSR_BIT ||| OPCODE_ALLPROCESSOR_BIT) exampleState).trace =
      [{ ProcNum := some 0, Location := some ⟨0, 0, 0⟩, Fields := [23] }] := by
  decide

/-- C3 (as amended): the routine makes no range check. On a discovered
topology of `N` processors, `RDMSR | PROCESSOR_INDEX` and
`CPUID | PROCESSOR_INDEX` with `ProcessorIndex >= N` each make exactly one
`StartupThisAP` call, to that index with the matching procedure, and run no
primitive in place; when the service rejects the call the routine does nothing
else and ends normally. -/
theorem C3_out_of_range_is_forwarded (p : Platform) (g : Globals) (ctx : UEFI_TOOL_CONTEXT)
    (s : State) (h : g.Discovered) (hidx : g.mProcessorNum ≤ ctx.ProcessorIndex) :
    (∃ t, (UefiToolRoutine p g ctx (OPCODE_RDMSR_BIT ||| OPCODE_PROCESSOR_INDEX_BIT) s).trace =
          s.trace ++ t ∧
        remoteCalls t = [(.ApUtReadMsr, ctx.ProcessorIndex)] ∧
        ∀ e ∈ primitives t, e = .AsmReadMsr64 (.AP ctx.ProcessorIndex) ctx.MsrIndex) ∧
    (∃ t, (UefiToolRoutine p g ctx (OPCODE_CPUID_BIT ||| OPCODE_PROCESSOR_INDEX_BIT) s).trace =
          s.trace ++ t ∧
        remoteCalls t = [(.ApUtReadCpuId, ctx.ProcessorIndex)] ∧
        ∀ e ∈ primitives t,
          e = .AsmCpuidEx (.AP ctx.ProcessorIndex) ctx.CpuIdIndex ctx.CpuIdSubIndex) ∧
    (EFI_ERROR (p.StartupThisAP ctx.ProcessorIndex) = true →
      UefiToolRoutine p g ctx (OPCODE_RDMSR_BIT ||| OPCODE_PROCESSOR_INDEX_BIT) s =
          .ok ⟨s.msr, s.trace ++ [.StartupThisAP .ApUtReadMsr ctx.ProcessorIndex]⟩ ∧
      UefiToolRoutine p g ctx (OPCODE_CPUID_BIT ||| OPCODE_PROCESSOR_INDEX_BIT) s =
          .ok ⟨s.msr, s.trace ++ [.StartupThisAP .ApUtReadCpuId ctx.ProcessorIndex]⟩) := by
  have hmp : g.mMpService = true := h.1
  have hb : ctx.ProcessorIndex ≠ g.mBspIndex := by have := h.2.1; omega
  rw [UefiToolRoutine_rdmsr_index, UefiToolRoutine_cpuid_index]
  exact ⟨rdmsrOn_remote p g ctx s _ hmp hb, cpuidOn_remote p g ctx s _ hmp hb,
    fun he => ⟨rdmsrOn_rejected p g ctx s _ hmp hb he, cpuidOn_rejected p g ctx s _ hmp hb he⟩⟩

theorem C3_out_of_range_is_forwarded_witness :
    (discover (examplePlatform EFI_SUCCESS 4 0 (firmwareStartup 4 0))).Discovered ∧
    (discover (examplePlatform EFI_SUCCESS 4 0 (firmwareStartup 4 0))).mProcessorNum ≤
      (exampleContext 5).ProcessorIndex ∧
    EFI_ERROR ((examplePlatform EFI_SUCCESS 4 0 (firmwareStartup 4 0)).StartupThisAP 5) = true ∧
    UefiToolRoutine (examplePlatform EFI_SUCCESS 4 0 (firmwareStartup 4 0))
        (discover (examplePlatform EFI_SUCCESS 4 0 (firmwareStartup 4 0))) (exampleContext 5)
        (OPCODE_RDMSR_BIT ||| OPCODE_PROCESSOR_INDEX_BIT) exampleState =
      .ok ⟨exampleState.msr, exampleState.trace ++ [.StartupThisAP .ApUtReadMsr 5]⟩ ∧
    UefiToolRoutine (examplePlatform EFI_SUCCESS 4 0 (firmwareStartup 4 0))
        (discover (examplePlatform EFI_SUCCESS 4 0 (firmwareStartup 4 0))) (exampleContext 5)
        (OPCODE_CPUID_BIT ||| OPCODE_PROCESSOR_INDEX_BIT) exampleState =
      .ok ⟨exampleState.msr, exampleState.trace ++ [.StartupThisAP .ApUtReadCpuId 5]⟩ :=
  ⟨by decide, by decide, by decide,
    (C3_out_of_range_is_forwarded (examplePlatform EFI_SUCCESS 4 0 (firmwareStartup 4 0))
      (discover (examplePlatform EFI_SUCCESS 4 0 (firmwareStartup 4 0))) (exampleContext 5)
      exampleState (by decide) (by decide)).2.2 (by decide)⟩

/-- C3, the claim as stated fails: `RDMSR 10 -P 5` on a four-processor system
(boot processor 0, firmware that answers not-found for index 5) makes one
remote-execution call, to index 5, and ends normally, with no condition
raised. -/
theorem C3_counterexample :
    (discover (examplePlatform EFI_SUCCESS 4 0 (firmwareStartup 4 0))).mProcessorNum = 4 ∧
    remoteCalls (UefiToolRoutine (examplePlatform EFI_SUCCESS 4 0 (firmwareStartup 4 0))
        (discover (examplePlatform EFI_SUCCESS 4 0 (firmwareStartup 4 0))) (exampleContext 5)
        (OPCODE_RDMSR_BIT ||| OPCODE_PROCESSOR_INDEX_BIT) exampleState).trace =
      [(.ApUtReadMsr, 5)] ∧
    (UefiToolRoutine (examplePlatform EFI_SUCCESS 4 0 (firmwareStartup 4 0))
        (discover (examplePlatform EFI_SUCCESS 4 0 (firmwareStartup 4 0))) (exampleContext 5)
        (OPCODE_RDMSR_BIT ||| OPCODE_PROCESSOR_INDEX_BIT) exampleState).fault = none := by
  decide

/-- C4, the failing input: on a platform without the MP services protocol,
`GetProcessorsCpuLocation` returns `EFI_UNSUPPORTED` and leaves the globals
zero; `ShellAppMain` discards that status, and `RDMSR 10 -P 1` and
`CPUID 1 0 -P 1` then call through the null protocol pointer, while
`RDMSR 10 -P 0` and `CPUID 1 0 -P 0` read the null location buffer. `RDMSR 10 -A`
finds no processor to visit, and `RDMSR 10` alone still reads in place. -/
theorem C4_unsupported_discovery_is_not_checked :
    GetProcessorsCpuLocation noMpPlatform Globals.zero = (EFI_UNSUPPORTED, Globals.zero) ∧
    (ShellAppMain noMpPlatform 8
        [L ['U', 'e', 'f', 'i', 'T', 'o', 'o', 'l'], L ['R', 'D', 'M', 'S', 'R'], L ['1', '0'],
          L ['-', 'P'], L ['1']] exampleState).map (fun o => Outcome.fault (o.map Prod.snd)) =
      some (some .NullMpService) ∧
    (ShellAppMain noMpPlatform 8
        [L ['U', 'e', 'f', 'i', 'T', 'o', 'o', 'l'], L ['C', 'P', 'U', 'I', 'D'], L ['1'],
          L ['0'], L ['-', 'P'], L ['1']] exampleState).map
        (fun o => Outcome.fault (o.map Prod.snd)) =
      some (some .NullMpService) ∧
    (ShellAppMain noMpPlatform 8
        [L ['U', 'e', 'f', 'i', 'T', 'o', 'o', 'l'], L ['R', 'D', 'M', 'S', 'R'], L ['1', '0'],
          L ['-', 'P'], L ['0']] exampleState).map (fun o => Outcome.fault (o.map Prod.snd)) =
      some (some .NullLocBuf) ∧
    (ShellAppMain noMpPlatform 8
        [L ['U', 'e', 'f', 'i', 'T', 'o', 'o', 'l'], L ['C', 'P', 'U', 'I', 'D'], L ['1'],
          L ['0'], L ['-', 'P'], L ['0']] exampleState).map
        (fun o => Outcome.fault (o.map Prod.snd)) =
      some (some .NullLocBuf) ∧
    (ShellAppMain noMpPlatform 8
        [L ['U', 'e', 'f', 'i', 'T', 'o', 'o', 'l'], L ['R', 'D', 'M', 'S', 'R'], L ['1', '0'],
          L ['-', 'A']] exampleState).map (fun o => o.map (fun r => (r.1, r.2.trace))) =
      some (.ok (0, [.Print (.Banner 0), .Print (.Banner 1)])) ∧
    (ShellAppMain noMpPlatform 8
        [L ['U', 'e', 'f', 'i', 'T', 'o', 'o', 'l'], L ['R', 'D', 'M', 'S', 'R'], L ['1', '0']]
        exampleState).map (fun o => o.map (fun r => (r.1, r.2.trace))) =
      some (.ok (0, [.Print (.Banner 0), .Print (.Banner 1), .AsmReadMsr64 .Caller 0x10,
        .Print (.RdMsr 0x10 23)])) := by
  refine ⟨rfl, rfl, rfl, rfl, rfl, rfl, rfl⟩

/-- C5 (as amended): the status of each `StartupThisAP` call is discarded. On
a discovered topology, when the call for a non-boot index `i` fails during the
`RDMSR | ALLPROCESSOR` sweep, the sweep prints no record for `i`, ends
normally, and still handles every later index: one call for each later
non-boot index, and the in-place read when the boot index comes after `i`. -/
theorem C5_sweep_continues_after_failure (p : Platform) (g : Globals) (ctx : UEFI_TOOL_CONTEXT)
    (s : State) (i : Nat) (h : g.Discovered) (hi : i < g.mProcessorNum) (hib : i ≠ g.mBspIndex)
    (he : EFI_ERROR (p.StartupThisAP i) = true) :
    ∃ t, UefiToolRoutine p g ctx (OPCODE_RDMSR_BIT ||| OPCODE_ALLPROCESSOR_BIT) s =
        .ok ⟨s.msr, s.trace ++ t⟩ ∧
      (AP_PROCEDURE.ApUtReadMsr, i) ∈ remoteCalls t ∧
      (∀ r ∈ records t, r.ProcNum ≠ some i) ∧
      (∀ j, i < j → j < g.mProcessorNum → j ≠ g.mBspIndex →
        (AP_PROCEDURE.ApUtReadMsr, j) ∈ remoteCalls t) ∧
      (i < g.mBspIndex → Event.AsmReadMsr64 .Caller ctx.MsrIndex ∈ primitives t) := by
  have hc := remoteCalls_rdmsrEvents p g ctx s.msr (List.range g.mProcessorNum)
  have hr := recordsAux_rdmsrEvents_gen p g ctx s.msr (List.range g.mProcessorNum)
  have hp := primitives_rdmsrEvents_gen p g ctx s.msr (List.range g.mProcessorNum)
  refine ⟨_, rdmsrSweep_all p h ctx s, ?_, ?_, ?_, ?_⟩
  · rw [hc]; simp [hi, hib]
  · intro r hrm
    rw [records, hr] at hrm
    simp only [List.mem_map, List.mem_filter] at hrm
    obtain ⟨k, ⟨_, hk⟩, rfl⟩ := hrm
    intro hki
    have : k = i := by simpa using hki
    subst this
    simp [executes, hib, he] at hk
  · intro j _ hj hjb
    rw [hc]; simp [hj, hjb]
  · intro _
    rw [hp]
    simp only [List.mem_map, List.mem_filter, List.mem_range]
    exact ⟨g.mBspIndex, ⟨h.2.1, by simp [executes]⟩, by simp [readSite]⟩

theorem C5_sweep_continues_after_failure_witness :
    (discover (examplePlatform EFI_SUCCESS 3 0
      (fun k => if k = 1 then ERR_NOT_READY else EFI_SUCCESS))).Discovered ∧
    EFI_ERROR ((examplePlatform EFI_SUCCESS 3 0
      (fun k => if k = 1 then ERR_NOT_READY else EFI_SUCCESS)).StartupThisAP 1) = true ∧
    ∃ t, UefiToolRoutine
        (examplePlatform EFI_SUCCESS 3 0 (fun k => if k = 1 then ERR_NOT_READY else EFI_SUCCESS))
        (discover (examplePlatform EFI_SUCCESS 3 0
          (fun k => if k = 1 then ERR_NOT_READY else EFI_SUCCESS)))
        (exampleContext 0) (OPCODE_RDMSR_BIT ||| OPCODE_ALLPROCESSOR_BIT) exampleState =
        .ok ⟨exampleState.msr, exampleState.trace ++ t⟩ ∧
      (AP_PROCEDURE.ApUtReadMsr, 1) ∈ remoteCalls t ∧
      (∀ r ∈ records t, r.ProcNum ≠ some 1) ∧
      (∀ j, 1 < j → j < 3 → j ≠ 0 → (AP_PROCEDURE.ApUtReadMsr, j) ∈ remoteCalls t) ∧
      (1 < 0 → Event.AsmReadMsr64 .Caller 0x10 ∈ primitives t) :=
  ⟨by decide, by decide,
    C5_sweep_continues_after_failure
      (examplePlatform EFI_SUCCESS 3 0 (fun k => if k = 1 then ERR_NOT_READY else EFI_SUCCESS))
      (discover (examplePlatform EFI_SUCCESS 3 0
        (fun k => if k = 1 then ERR_NOT_READY else EFI_SUCCESS)))
      (exampleContext 0) exampleState 1 (by decide) (by decide) (by decide) (by decide)⟩

/-- C5, the claim as stated fails: three processors, boot processor 0, the
call for index 1 fails; the sweep ends normally and has gone on to call
`StartupThisAP` for index 2 and to run the read there. -/
theorem C5_counterexample :
    EFI_ERROR ((examplePlatform EFI_SUCCESS 3 0
      (fun k => if k = 1 then ERR_NOT_READY else EFI_SUCCESS)).StartupThisAP 1) = true ∧
    (UefiToolRoutine
        (examplePlatform EFI_SUCCESS 3 0 (fun k => if k = 1 then ERR_NOT_READY else EFI_SUCCESS))
        (discover (examplePlatform EFI_SUCCESS 3 0
          (fun k => if k = 1 then ERR_NOT_READY else EFI_SUCCESS)))
        (exampleContext 0) (OPCODE_RDMSR_BIT ||| OPCODE_ALLPROCESSOR_BIT) exampleState).trace =
      [.AsmReadMsr64 .Caller 0x10, .Print (.RdMsrProc 0x10 0 0 0 0 23),
        .StartupThisAP .ApUtReadMsr 1,
        .StartupThisAP .ApUtReadMsr 2, .AsmReadMsr64 (.AP 2) 0x10,
        .Print (.RdMsrProc 0x10 2 0 2 0 23)] ∧
    (UefiToolRoutine
        (examplePlatform EFI_SUCCESS 3 0 (fun k => if k = 1 then ERR_NOT_READY else EFI_SUCCESS))
        (discover (examplePlatform EFI_SUCCESS 3 0
          (fun k => if k = 1 then ERR_NOT_READY else EFI_SUCCESS)))
        (exampleContext 0) (OPCODE_RDMSR_BIT ||| OPCODE_ALLPROCESSOR_BIT) exampleState).fault =
      none := by
  decide

/-- C6 (as amended): `CPUID | ALLPROCESSOR` is not one of the pairings the
routine handles. For every platform, topology and context it leaves the state
unchanged (no record, no primitive, no remote call), and the command line
`CPUID <leaf> <subLeaf> -A`, which builds that opcode, prints the banner only
and returns 0. -/
theorem C6_cpuid_all_is_noop (p : Platform) (g : Globals) (ctx : UEFI_TOOL_CONTEXT)
    (s : State) (prog leaf subLeaf : List Nat) (fuel : Nat) :
    UefiToolRoutine p g ctx (OPCODE_CPUID_BIT ||| OPCODE_ALLPROCESSOR_BIT) s = .ok s ∧
    scanArgs p 5 (fuel + 3) [prog, L ['C', 'P', 'U', 'I', 'D'], leaf, subLeaf, L ['-', 'A']] 1 0
        ⟨0, 0, 0, 0, 0⟩ =
      some (OPCODE_CPUID_BIT ||| OPCODE_ALLPROCESSOR_BIT,
        ⟨0, 0, p.StrHexToUintn leaf % 2 ^ 32, p.StrHexToUintn subLeaf % 2 ^ 32, 0⟩) ∧
    ShellAppMain p (fuel + 3) [prog, L ['C', 'P', 'U', 'I', 'D'], leaf, subLeaf, L ['-', 'A']] s =
      some (.ok (0, Print (.Banner 1) (Print (.Banner 0) s))) := by
  have h1 : ∀ g ctx s, UefiToolRoutine p g ctx (OPCODE_CPUID_BIT ||| OPCODE_ALLPROCESSOR_BIT) s =
      .ok s := fun g ctx s => UefiToolRoutine_other p g ctx _ s (by decide) (by decide)
    (by decide) (by decide) (by decide) (by decide)
  have h2 : scanArgs p 5 (fuel + 3)
      [prog, L ['C', 'P', 'U', 'I', 'D'], leaf, subLeaf, L ['-', 'A']] 1 0 ⟨0, 0, 0, 0, 0⟩ =
      some (OPCODE_CPUID_BIT ||| OPCODE_ALLPROCESSOR_BIT,
        ⟨0, 0, p.StrHexToUintn leaf % 2 ^ 32, p.StrHexToUintn subLeaf % 2 ^ 32, 0⟩) := by
    rfl
  refine ⟨h1 g ctx s, h2, ?_⟩
  simp only [ShellAppMain, List.length_cons, List.length_nil]
  simp only [Nat.zero_add, Nat.reduceAdd, Nat.reduceEqDiff, if_false, h2, h1, Except.map]

/-- C6, the claim as stated fails: on the topology of two processors
(0 the boot processor at package 0, core 0, thread 0; 1 at package 0, core 1,
thread 0) the request leaf `1`, sub-leaf `0` with `CPUID | ALLPROCESSOR`
prints no record at all, and so does the command line `CPUID 1 0 -A`. -/
theorem C6_counterexample :
    (discover (examplePlatform EFI_SUCCESS 2 0 (firmwareStartup 2 0))).mProcessorLocBuf =
      some [⟨0, 0, ⟨0, 0, 0⟩⟩, ⟨1, 0, ⟨0, 1, 0⟩⟩] ∧
    records (UefiToolRoutine (examplePlatform EFI_SUCCESS 2 0 (firmwareStartup 2 0))
        (discover (examplePlatform EFI_SUCCESS 2 0 (firmwareStartup 2 0))) (exampleContext 0)
        (OPCODE_CPUID_BIT ||| OPCODE_ALLPROCESSOR_BIT) exampleState).trace = [] ∧
    (ShellAppMain (examplePlatform EFI_SUCCESS 2 0 (firmwareStartup 2 0)) 8
        [L ['U', 'e', 'f', 'i', 'T', 'o', 'o', 'l'], L ['C', 'P', 'U', 'I', 'D'], L ['1'],
          L ['0'], L ['-', 'A']] exampleState).map
        (fun o => records (Outcome.trace (o.map Prod.snd))) = some [] := by
  decide

/-- C7: for every opcode other than `RDMSR`, `WRMSR`, `CPUID`,
`RDMSR | PROCESSOR_INDEX`, `CPUID | PROCESSOR_INDEX` and `RDMSR | ALLPROCESSOR`
the routine returns the state it was given: nothing is printed, no primitive
runs, no remote call is made and the register store is untouched. So it is for
`WRMSR | PROCESSOR_INDEX` and `WRMSR | ALLPROCESSOR`. -/
theorem C7_other_opcodes_are_noops (p : Platform) (g : Globals) (ctx : UEFI_TOOL_CONTEXT)
    (Opcode : Nat) (s : State)
    (h1 : Opcode ≠ OPCODE_RDMSR_BIT) (h2 : Opcode ≠ OPCODE_WRMSR_BIT)
    (h3 : Opcode ≠ OPCODE_CPUID_BIT)
    (h4 : Opcode ≠ OPCODE_RDMSR_BIT ||| OPCODE_PROCESSOR_INDEX_BIT)
    (h5 : Opcode ≠ OPCODE_CPUID_BIT ||| OPCODE_PROCESSOR_INDEX_BIT)
    (h6 : Opcode ≠ OPCODE_RDMSR_BIT ||| OPCODE_ALLPROCESSOR_BIT) :
    UefiToolRoutine p g ctx Opcode s = .ok s ∧
    UefiToolRoutine p g ctx (OPCODE_WRMSR_BIT ||| OPCODE_PROCESSOR_INDEX_BIT) s = .ok s ∧
    UefiToolRoutine p g ctx (OPCODE_WRMSR_BIT ||| OPCODE_ALLPROCESSOR_BIT) s = .ok s :=
  ⟨UefiToolRoutine_other p g ctx Opcode s h1 h2 h3 h4 h5 h6,
    UefiToolRoutine_other p g ctx _ s (by decide) (by decide) (by decide) (by decide)
      (by decide) (by decide),
    UefiToolRoutine_other p g ctx _ s (by decide) (by decide) (by decide) (by decide)
      (by decide) (by decide)⟩

theorem C7_other_opcodes_are_noops_witness :
    (OPCODE_RDMSR_BIT ||| OPCODE_WRMSR_BIT) ≠ OPCODE_RDMSR_BIT ∧
    UefiToolRoutine (examplePlatform EFI_SUCCESS 2 0 (firmwareStartup 2 0)) (exampleTopology 2 0)
        (exampleContext 1) (OPCODE_RDMSR_BIT ||| OPCODE_WRMSR_BIT) exampleState =
      .ok exampleState ∧
    UefiToolRoutine (examplePlatform EFI_SUCCESS 2 0 (firmwareStartup 2 0)) (exampleTopology 2 0)
        (exampleContext 1) (OPCODE_WRMSR_BIT ||| OPCODE_PROCESSOR_INDEX_BIT) exampleState =
      .ok exampleState ∧
    UefiToolRoutine (examplePlatform EFI_SUCCESS 2 0 (firmwareStartup 2 0)) (exampleTopology 2 0)
        (exampleContext 1) (OPCODE_WRMSR_BIT ||| OPCODE_ALLPROCESSOR_BIT) exampleState =
      .ok exampleState :=
  ⟨by decide,
    C7_other_opcodes_are_noops (examplePlatform EFI_SUCCESS 2 0 (firmwareStartup 2 0))
      (exampleTopology 2 0) (exampleContext 1) (OPCODE_RDMSR_BIT ||| OPCODE_WRMSR_BIT)
      exampleState (by decide) (by decide) (by decide) (by decide) (by decide) (by decide)⟩

/-- C8 (as amended): on a discovered topology of `N` processors with boot
index `b`, the `RDMSR | ALLPROCESSOR` sweep calls `StartupThisAP` exactly once
for each index other than `b`, in ascending order, `N - 1` calls in all and
none of them to `b`. The read primitive executes exactly once on the calling
processor, for `b`; exactly once on processor `i` for every other index `i`
whose call succeeds; and not at all for an index whose call fails. When every
call succeeds that is one read for each index `0 .. N-1`. -/
theorem C8_rdmsr_all_once_per_target (p : Platform) (g : Globals) (ctx : UEFI_TOOL_CONTEXT)
    (s : State) (h : g.Discovered) :
    ∃ t, UefiToolRoutine p g ctx (OPCODE_RDMSR_BIT ||| OPCODE_ALLPROCESSOR_BIT) s =
        .ok ⟨s.msr, s.trace ++ t⟩ ∧
      remoteCalls t =
        ((List.range g.mProcessorNum).filter (fun k => decide (k ≠ g.mBspIndex))).map
          (fun k => (AP_PROCEDURE.ApUtReadMsr, k)) ∧
      (remoteCalls t).length = g.mProcessorNum - 1 ∧
      ((remoteCalls t).map Prod.snd).Pairwise (· < ·) ∧
      (∀ f, (f, g.mBspIndex) ∉ remoteCalls t) ∧
      primitives t = ((List.range g.mProcessorNum).filter (executes p g)).map
        (fun k => Event.AsmReadMsr64 (if k = g.mBspIndex then .Caller else .AP k)
          ctx.MsrIndex) ∧
      (primitives t).Nodup ∧
      Event.AsmReadMsr64 .Caller ctx.MsrIndex ∈ primitives t ∧
      (∀ i, Event.AsmReadMsr64 (.AP i) ctx.MsrIndex ∈ primitives t ↔
        i < g.mProcessorNum ∧ i ≠ g.mBspIndex ∧ EFI_ERROR (p.StartupThisAP i) = false) ∧
      ((∀ k, k < g.mProcessorNum → k ≠ g.mBspIndex → EFI_ERROR (p.StartupThisAP k) = false) →
        primitives t = (List.range g.mProcessorNum).map
          (fun k => Event.AsmReadMsr64 (if k = g.mBspIndex then .Caller else .AP k)
            ctx.MsrIndex)) := by
  have hc := remoteCalls_rdmsrEvents p g ctx s.msr (List.range g.mProcessorNum)
  have hp := primitives_rdmsrEvents_gen p g ctx s.msr (List.range g.mProcessorNum)
  refine ⟨_, rdmsrSweep_all p h ctx s, hc, ?_, ?_, ?_, ?_, ?_, ?_, ?_, ?_⟩
  · rw [hc, List.length_map]
    exact length_filter_ne_range _ _ h.2.1
  · rw [hc, List.map_map]
    have : (Prod.snd ∘ fun (k : Nat) => (AP_PROCEDURE.ApUtReadMsr, k)) = id := rfl
    rw [this, List.map_id]
    exact (List.pairwise_lt_range _).filter _
  · intro f hf
    rw [hc] at hf
    simp at hf
  · simpa [readSite] using hp
  · rw [hp]
    exact ((List.nodup_range _).filter _).map (readEvent_injective g ctx.MsrIndex)
  · rw [hp]
    exact List.mem_map.mpr ⟨g.mBspIndex,
      (mem_filter_executes p g _ _).mpr ⟨h.2.1, Or.inl rfl⟩, by simp [readSite]⟩
  · intro i
    rw [hp, List.mem_map]
    constructor
    · rintro ⟨k, hk, hki⟩
      have hk2 := (mem_filter_executes p g _ k).mp hk
      by_cases hb : k = g.mBspIndex
      · simp [readSite, hb] at hki
      · simp only [readSite, hb, if_false, Event.AsmReadMsr64.injEq, Site.AP.injEq,
          and_true] at hki
        subst hki
        exact ⟨hk2.1, hb, hk2.2.resolve_left hb⟩
    · rintro ⟨hi, hb, he⟩
      exact ⟨i, (mem_filter_executes p g _ i).mpr ⟨hi, Or.inr he⟩, by simp [readSite, hb]⟩
  · intro hap
    have hf := filter_executes_eq p g (List.range g.mProcessorNum)
      (fun k hk hb => hap k (List.mem_range.mp hk) hb)
    rw [hp, hf]
    simp [readSite]

theorem C8_rdmsr_all_once_per_target_witness :
    (discover (busyPlatform 4 1 2)).Discovered ∧
    ∃ t, UefiToolRoutine (busyPlatform 4 1 2) (discover (busyPlatform 4 1 2)) (exampleContext 0)
        (OPCODE_RDMSR_BIT ||| OPCODE_ALLPROCESSOR_BIT) exampleState =
        .ok ⟨exampleState.msr, exampleState.trace ++ t⟩ ∧
      remoteCalls t = [(.ApUtReadMsr, 0), (.ApUtReadMsr, 2), (.ApUtReadMsr, 3)] ∧
      (remoteCalls t).length = 4 - 1 ∧
      primitives t = [.AsmReadMsr64 (.AP 0) 0x10, .AsmReadMsr64 .Caller 0x10,
        .AsmReadMsr64 (.AP 3) 0x10] :=
  ⟨by decide,
    (C8_rdmsr_all_once_per_target (busyPlatform 4 1 2) (discover (busyPlatform 4 1 2))
      (exampleContext 0) exampleState (by decide)).imp
      (fun _ ht => ⟨ht.1, ht.2.1, ht.2.2.1, ht.2.2.2.2.2.1⟩)⟩

/-- C8, the claim as stated fails: three discovered processors, boot
processor 0, and processor 2 does not answer `StartupThisAP`; the sweep makes
its two remote calls, but the read primitive runs for indices 0 and 1 only:
index 2 is never read. -/
theorem C8_counterexample :
    (discover (busyPlatform 3 0 2)).Discovered ∧
    (discover (busyPlatform 3 0 2)).mProcessorNum = 3 ∧
    remoteCalls (UefiToolRoutine (busyPlatform 3 0 2) (discover (busyPlatform 3 0 2))
        (exampleContext 0) (OPCODE_RDMSR_BIT ||| OPCODE_ALLPROCESSOR_BIT) exampleState).trace =
      [(.ApUtReadMsr, 1), (.ApUtReadMsr, 2)] ∧
    primitives (UefiToolRoutine (busyPlatform 3 0 2) (discover (busyPlatform 3 0 2))
        (exampleContext 0) (OPCODE_RDMSR_BIT ||| OPCODE_ALLPROCESSOR_BIT) exampleState).trace =
      [.AsmReadMsr64 .Caller 0x10, .AsmReadMsr64 (.AP 1) 0x10] := by
  decide

/-- C9: each of the opcodes `RDMSR`, `WRMSR`, `CPUID` alone runs its primitive
once, on the calling processor, with the parameters of the context; prints one
record without processor index or coordinates; makes no remote call; and does
the same whatever the topology globals hold. -/
theorem C9_boot_only (p : Platform) (g : Globals) (ctx : UEFI_TOOL_CONTEXT) (s : State) :
    (∃ t, UefiToolRoutine p g ctx OPCODE_RDMSR_BIT s = .ok ⟨s.msr, s.trace ++ t⟩ ∧
      primitives t = [.AsmReadMsr64 .Caller ctx.MsrIndex] ∧ remoteCalls t = [] ∧
      records t = [{ ProcNum := none, Location := none,
                     Fields := [s.msr .Caller ctx.MsrIndex % 2 ^ 64] }]) ∧
    (∃ t, UefiToolRoutine p g ctx OPCODE_WRMSR_BIT s =
        .ok ⟨fun c i => if c = .Caller ∧ i = ctx.MsrIndex then ctx.MsrValue else s.msr c i,
          s.trace ++ t⟩ ∧
      primitives t = [.AsmWriteMsr64 .Caller ctx.MsrIndex ctx.MsrValue] ∧ remoteCalls t = [] ∧
      records t = [{ ProcNum := none, Location := none, Fields := [ctx.MsrValue] }]) ∧
    (∃ t, UefiToolRoutine p g ctx OPCODE_CPUID_BIT s = .ok ⟨s.msr, s.trace ++ t⟩ ∧
      primitives t = [.AsmCpuidEx .Caller ctx.CpuIdIndex ctx.CpuIdSubIndex] ∧
      remoteCalls t = [] ∧
      records t = [{ ProcNum := none, Location := none,
                     Fields := cpuidFields p ctx .Caller }]) ∧
    (∀ g2 Opcode, Opcode = OPCODE_RDMSR_BIT ∨ Opcode = OPCODE_WRMSR_BIT ∨
        Opcode = OPCODE_CPUID_BIT →
      UefiToolRoutine p g2 ctx Opcode s = UefiToolRoutine p g ctx Opcode s) := by
  refine ⟨⟨[.AsmReadMsr64 .Caller ctx.MsrIndex,
      .Print (.RdMsr ctx.MsrIndex (s.msr .Caller ctx.MsrIndex % 2 ^ 64))], ?_, ?_, ?_, ?_⟩,
    ⟨[.AsmWriteMsr64 .Caller ctx.MsrIndex ctx.MsrValue,
      .Print (.WrMsr ctx.MsrValue ctx.MsrIndex)], ?_, ?_, ?_, ?_⟩,
    ⟨[.AsmCpuidEx .Caller ctx.CpuIdIndex ctx.CpuIdSubIndex,
      .Print (.CpuId ctx.CpuIdIndex ctx.CpuIdSubIndex),
      .Print (.Reg .EAX ((p.Cpuid .Caller ctx.CpuIdIndex ctx.CpuIdSubIndex).Eax % 2 ^ 32)),
      .Print (.Reg .EBX ((p.Cpuid .Caller ctx.CpuIdIndex ctx.CpuIdSubIndex).Ebx % 2 ^ 32)),
      .Print (.Reg .ECX ((p.Cpuid .Caller ctx.CpuIdIndex ctx.CpuIdSubIndex).Ecx % 2 ^ 32)),
      .Print (.Reg .EDX ((p.Cpuid .Caller ctx.CpuIdIndex ctx.CpuIdSubIndex).Edx % 2 ^ 32))],
      ?_, ?_, ?_, ?_⟩, ?_⟩
  · simp [UefiToolRoutine, OPCODE_RDMSR_BIT, OPCODE_WRMSR_BIT, OPCODE_CPUID_BIT,
      OPCODE_ALLPROCESSOR_BIT, OPCODE_PROCESSOR_INDEX_BIT, AsmReadMsr64, Print, State.emit]
    rfl
  · simp [primitives]
  · simp [remoteCalls]
  · simp [records, recordsAux]
  · simp [UefiToolRoutine, OPCODE_RDMSR_BIT, OPCODE_WRMSR_BIT, OPCODE_CPUID_BIT,
      OPCODE_ALLPROCESSOR_BIT, OPCODE_PROCESSOR_INDEX_BIT, AsmWriteMsr64, Print, State.emit]
    rfl
  · simp [primitives]
  · simp [remoteCalls]
  · simp [records, recordsAux]
  · simp [UefiToolRoutine, OPCODE_RDMSR_BIT, OPCODE_WRMSR_BIT, OPCODE_CPUID_BIT,
      OPCODE_ALLPROCESSOR_BIT, OPCODE_PROCESSOR_INDEX_BIT, AsmCpuidEx, Print, State.emit]
    rfl
  · simp [primitives]
  · simp [remoteCalls]
  · simp [records, recordsAux, cpuidFields]
  · intro g2 Opcode hop
    rcases hop with rfl | rfl | rfl <;>
      simp [UefiToolRoutine, OPCODE_RDMSR_BIT, OPCODE_WRMSR_BIT, OPCODE_CPUID_BIT,
        OPCODE_ALLPROCESSOR_BIT, OPCODE_PROCESSOR_INDEX_BIT]

/-- C10 (as amended): on a discovered topology, `CPUID | PROCESSOR_INDEX`
with an in-range `ProcessorIndex` has the shape of the register read. For the
boot index the identification primitive runs on the calling processor, no
remote call is made and exactly one record is printed. For any other index
exactly one `StartupThisAP` call is made, to that index with the
identification procedure, and nothing runs in place; exactly one record is
printed when that call succeeds and none when it fails. A record carries the
package, core and thread of that index's descriptor and four fields below
`2^32`. -/
theorem C10_cpuid_specific (p : Platform) (g : Globals) (ctx : UEFI_TOOL_CONTEXT) (s : State)
    (h : g.Discovered) (hidx : ctx.ProcessorIndex < g.mProcessorNum) :
    (ctx.ProcessorIndex = g.mBspIndex →
      ∃ t, UefiToolRoutine p g ctx (OPCODE_CPUID_BIT ||| OPCODE_PROCESSOR_INDEX_BIT) s =
          .ok ⟨s.msr, s.trace ++ t⟩ ∧
        remoteCalls t = [] ∧
        primitives t = [.AsmCpuidEx .Caller ctx.CpuIdIndex ctx.CpuIdSubIndex] ∧
        records t = [{ ProcNum := none,
                       Location := some (g.descriptor ctx.ProcessorIndex).Location,
                       Fields := cpuidFields p ctx .Caller }]) ∧
    (ctx.ProcessorIndex ≠ g.mBspIndex →
      ∃ t, UefiToolRoutine p g ctx (OPCODE_CPUID_BIT ||| OPCODE_PROCESSOR_INDEX_BIT) s =
          .ok ⟨s.msr, s.trace ++ t⟩ ∧
        remoteCalls t = [(.ApUtReadCpuId, ctx.ProcessorIndex)] ∧
        (∀ e ∈ primitives t,
          e = .AsmCpuidEx (.AP ctx.ProcessorIndex) ctx.CpuIdIndex ctx.CpuIdSubIndex) ∧
        (EFI_ERROR (p.StartupThisAP ctx.ProcessorIndex) = false →
          primitives t =
            [.AsmCpuidEx (.AP ctx.ProcessorIndex) ctx.CpuIdIndex ctx.CpuIdSubIndex] ∧
          records t = [{ ProcNum := none,
                         Location := some (g.descriptor ctx.ProcessorIndex).Location,
                         Fields := cpuidFields p ctx (.AP ctx.ProcessorIndex) }]) ∧
        (EFI_ERROR (p.StartupThisAP ctx.ProcessorIndex) = true →
          primitives t = [] ∧ records t = [])) ∧
    (∀ site, (cpuidFields p ctx site).length = 4 ∧ ∀ v ∈ cpuidFields p ctx site, v < 2 ^ 32) := by
  rw [UefiToolRoutine_cpuid_index, cpuidOn_eq p h ctx hidx s]
  refine ⟨fun hb => ⟨_, rfl, ?_, ?_, ?_⟩, fun hb => ⟨_, rfl, ?_, ?_, ?_, ?_⟩, ?_⟩
  · simp [cpuidEvents, cpuidLines, remoteCalls, hb]
  · simp [cpuidEvents, cpuidLines, primitives, hb]
  · simp [cpuidEvents, cpuidLines, records, recordsAux, cpuidFields, hb]
  · by_cases he : EFI_ERROR (p.StartupThisAP ctx.ProcessorIndex) = true <;>
      simp [cpuidEvents, cpuidLines, remoteCalls, hb, he]
  · by_cases he : EFI_ERROR (p.StartupThisAP ctx.ProcessorIndex) = true <;>
      simp [cpuidEvents, cpuidLines, primitives, hb, he]
  · intro he
    constructor
    · simp [cpuidEvents, cpuidLines, primitives, hb, he]
    · simp [cpuidEvents, cpuidLines, records, recordsAux, cpuidFields, hb, he]
  · intro he
    constructor
    · simp [cpuidEvents, primitives, hb, he]
    · simp [cpuidEvents, records, recordsAux, hb, he]
  · intro site
    refine ⟨rfl, ?_⟩
    intro v hv
    simp only [cpuidFields, List.mem_cons, List.mem_singleton, List.not_mem_nil, or_false] at hv
    rcases hv with rfl | rfl | rfl | rfl <;> exact Nat.mod_lt _ (by decide)

theorem C10_cpuid_specific_witness :
    (discover (busyPlatform 4 1 2)).Discovered ∧
    (∃ t, UefiToolRoutine (busyPlatform 4 1 2) (discover (busyPlatform 4 1 2)) (exampleContext 1)
          (OPCODE_CPUID_BIT ||| OPCODE_PROCESSOR_INDEX_BIT) exampleState =
          .ok ⟨exampleState.msr, exampleState.trace ++ t⟩ ∧
        remoteCalls t = [] ∧
        primitives t = [.AsmCpuidEx .Caller 1 0] ∧
        records t = [{ ProcNum := none, Location := some ⟨0, 1, 0⟩, Fields := [1, 0, 0, 0] }]) ∧
    (∃ t, UefiToolRoutine (busyPlatform 4 1 2) (discover (busyPlatform 4 1 2)) (exampleContext 3)
          (OPCODE_CPUID_BIT ||| OPCODE_PROCESSOR_INDEX_BIT) exampleState =
          .ok ⟨exampleState.msr, exampleState.trace ++ t⟩ ∧
        remoteCalls t = [(.ApUtReadCpuId, 3)] ∧
        primitives t = [.AsmCpuidEx (.AP 3) 1 0] ∧
        records t = [{ ProcNum := none, Location := some ⟨0, 3, 0⟩, Fields := [1, 0, 0, 0] }]) ∧
    (∃ t, UefiToolRoutine (busyPlatform 4 1 2) (discover (busyPlatform 4 1 2)) (exampleContext 2)
          (OPCODE_CPUID_BIT ||| OPCODE_PROCESSOR_INDEX_BIT) exampleState =
          .ok ⟨exampleState.msr, exampleState.trace ++ t⟩ ∧
        remoteCalls t = [(.ApUtReadCpuId, 2)] ∧
        primitives t = [] ∧ records t = []) :=
  ⟨by decide,
    (C10_cpuid_specific (busyPlatform 4 1 2) (discover (busyPlatform 4 1 2)) (exampleContext 1)
      exampleState (by decide) (by decide)).1 rfl,
    ((C10_cpuid_specific (busyPlatform 4 1 2) (discover (busyPlatform 4 1 2)) (exampleContext 3)
      exampleState (by decide) (by decide)).2.1 (by decide)).imp
      (fun _ ht => ⟨ht.1, ht.2.1, ht.2.2.2.1 (by decide)⟩),
    ((C10_cpuid_specific (busyPlatform 4 1 2) (discover (busyPlatform 4 1 2)) (exampleContext 2)
      exampleState (by decide) (by decide)).2.1 (by decide)).imp
      (fun _ ht => ⟨ht.1, ht.2.1, ht.2.2.2.2 (by decide)⟩)⟩

/-- C10, the claim as stated fails: two discovered processors, boot
processor 0, and processor 1 does not answer `StartupThisAP`; leaf `1`,
sub-leaf `0` with `CPUID | PROCESSOR_INDEX` for the in-range index 1 makes its
one remote call and prints no record. -/
theorem C10_counterexample :
    (discover (busyPlatform 2 0 1)).Discovered ∧
    (exampleContext 1).ProcessorIndex < (discover (busyPlatform 2 0 1)).mProcessorNum ∧
    remoteCalls (UefiToolRoutine (busyPlatform 2 0 1) (discover (busyPlatform 2 0 1))
        (exampleContext 1) (OPCODE_CPUID_BIT ||| OPCODE_PROCESSOR_INDEX_BIT) exampleState).trace =
      [(.ApUtReadCpuId, 1)] ∧
    records (UefiToolRoutine (busyPlatform 2 0 1) (discover (busyPlatform 2 0 1))
        (exampleContext 1) (OPCODE_CPUID_BIT ||| OPCODE_PROCESSOR_INDEX_BIT) exampleState).trace =
      [] := by
  decide

/-- C11: `WRMSR` alone with register `id` and a 64-bit value `v`, followed at
once by `RDMSR` alone with the same `id`, prints a read record whose value is
`v`: the in-place write sets the store entry of the calling processor and the
in-place read returns it. -/
theorem C11_write_then_read (p : Platform) (g : Globals) (ctxW ctxR : UEFI_TOOL_CONTEXT)
    (s : State) (hid : ctxR.MsrIndex = ctxW.MsrIndex) (hv : ctxW.MsrValue < 2 ^ 64) :
    ∃ s1 t, UefiToolRoutine p g ctxW OPCODE_WRMSR_BIT s = .ok s1 ∧
      UefiToolRoutine p g ctxR OPCODE_RDMSR_BIT s1 = .ok ⟨s1.msr, s1.trace ++ t⟩ ∧
      t = [.AsmReadMsr64 .Caller ctxW.MsrIndex,
        .Print (.RdMsr ctxW.MsrIndex ctxW.MsrValue)] ∧
      records t = [{ ProcNum := none, Location := none, Fields := [ctxW.MsrValue] }] := by
  refine ⟨_, _, UefiToolRoutine_wrmsr p g ctxW s, UefiToolRoutine_rdmsr p g ctxR _, ?_, ?_⟩
  · have hv2 : ctxW.MsrValue < 18446744073709551616 := hv
    simp [hid, Nat.mod_eq_of_lt hv2]
  · have hv2 : ctxW.MsrValue < 18446744073709551616 := hv
    simp [hid, Nat.mod_eq_of_lt hv2, records, recordsAux]

theorem C11_write_then_read_witness :
    (exampleContext 0).MsrIndex = ({ exampleContext 0 with MsrValue := 0xABCD }).MsrIndex ∧
    ({ exampleContext 0 with MsrValue := 0xABCD }).MsrValue < 2 ^ 64 ∧
    ∃ s1 t, UefiToolRoutine (examplePlatform EFI_SUCCESS 2 0 (firmwareStartup 2 0))
        (exampleTopology 2 0) { exampleContext 0 with MsrValue := 0xABCD } OPCODE_WRMSR_BIT
        exampleState = .ok s1 ∧
      UefiToolRoutine (examplePlatform EFI_SUCCESS 2 0 (firmwareStartup 2 0))
        (exampleTopology 2 0) (exampleContext 0) OPCODE_RDMSR_BIT s1 =
        .ok ⟨s1.msr, s1.trace ++ t⟩ ∧
      t = [.AsmReadMsr64 .Caller 0x10, .Print (.RdMsr 0x10 0xABCD)] ∧
      records t = [{ ProcNum := none, Location := none, Fields := [0xABCD] }] :=
  ⟨rfl, by decide,
    C11_write_then_read (examplePlatform EFI_SUCCESS 2 0 (firmwareStartup 2 0))
      (exampleTopology 2 0) { exampleContext 0 with MsrValue := 0xABCD } (exampleContext 0)
      exampleState rfl (by decide)⟩

/-- C12: for every register token `r` whose value fits 32 bits and every index
token `i` whose value fits a `UINTN`, the token loop turns `RDMSR r` into
opcode `RDMSR`, `RDMSR r -A` into `RDMSR | ALLPROCESSOR` and `RDMSR r -P i`
into `RDMSR | PROCESSOR_INDEX` with `ProcessorIndex` the value of `i`, each
with `MsrIndex` the value of `r`; `ShellAppMain` hands exactly that request to
the dispatcher. -/
theorem C12_rdmsr_request_building (p : Platform) (prog r i : List Nat) (fuel : Nat) (s : State)
    (hr : p.StrHexToUintn r < 2 ^ 32) (hi : p.StrHexToUintn i < 2 ^ 64) :
    scanArgs p 3 (fuel + 2) [prog, L ['R', 'D', 'M', 'S', 'R'], r] 1 0 ⟨0, 0, 0, 0, 0⟩ =
      some (OPCODE_RDMSR_BIT, ⟨p.StrHexToUintn r, 0, 0, 0, 0⟩) ∧
    scanArgs p 4 (fuel + 3) [prog, L ['R', 'D', 'M', 'S', 'R'], r, L ['-', 'A']] 1 0
        ⟨0, 0, 0, 0, 0⟩ =
      some (OPCODE_RDMSR_BIT ||| OPCODE_ALLPROCESSOR_BIT, ⟨p.StrHexToUintn r, 0, 0, 0, 0⟩) ∧
    scanArgs p 5 (fuel + 3) [prog, L ['R', 'D', 'M', 'S', 'R'], r, L ['-', 'P'], i] 1 0
        ⟨0, 0, 0, 0, 0⟩ =
      some (OPCODE_RDMSR_BIT ||| OPCODE_PROCESSOR_INDEX_BIT,
        ⟨p.StrHexToUintn r, 0, 0, 0, p.StrHexToUintn i⟩) ∧
    ShellAppMain p (fuel + 2) [prog, L ['R', 'D', 'M', 'S', 'R'], r] s =
      some ((UefiToolRoutine p (discover p) ⟨p.StrHexToUintn r, 0, 0, 0, 0⟩ OPCODE_RDMSR_BIT
        (Print (.Banner 1) (Print (.Banner 0) s))).map (fun s => (0, s))) ∧
    ShellAppMain p (fuel + 3) [prog, L ['R', 'D', 'M', 'S', 'R'], r, L ['-', 'A']] s =
      some ((UefiToolRoutine p (discover p) ⟨p.StrHexToUintn r, 0, 0, 0, 0⟩
        (OPCODE_RDMSR_BIT ||| OPCODE_ALLPROCESSOR_BIT)
        (Print (.Banner 1) (Print (.Banner 0) s))).map (fun s => (0, s))) ∧
    ShellAppMain p (fuel + 3) [prog, L ['R', 'D', 'M', 'S', 'R'], r, L ['-', 'P'], i] s =
      some ((UefiToolRoutine p (discover p) ⟨p.StrHexToUintn r, 0, 0, 0, p.StrHexToUintn i⟩
        (OPCODE_RDMSR_BIT ||| OPCODE_PROCESSOR_INDEX_BIT)
        (Print (.Banner 1) (Print (.Banner 0) s))).map (fun s => (0, s))) := by
  have h1 : scanArgs p 3 (fuel + 2) [prog, L ['R', 'D', 'M', 'S', 'R'], r] 1 0
      ⟨0, 0, 0, 0, 0⟩ = some (OPCODE_RDMSR_BIT, ⟨p.StrHexToUintn r % 2 ^ 32, 0, 0, 0, 0⟩) := rfl
  have h2 : scanArgs p 4 (fuel + 3) [prog, L ['R', 'D', 'M', 'S', 'R'], r, L ['-', 'A']] 1 0
      ⟨0, 0, 0, 0, 0⟩ = some (OPCODE_RDMSR_BIT ||| OPCODE_ALLPROCESSOR_BIT,
        ⟨p.StrHexToUintn r % 2 ^ 32, 0, 0, 0, 0⟩) := rfl
  have h3 : scanArgs p 5 (fuel + 3) [prog, L ['R', 'D', 'M', 'S', 'R'], r, L ['-', 'P'], i] 1 0
      ⟨0, 0, 0, 0, 0⟩ = some (OPCODE_RDMSR_BIT ||| OPCODE_PROCESSOR_INDEX_BIT,
        ⟨p.StrHexToUintn r % 2 ^ 32, 0, 0, 0, p.StrHexToUintn i % 2 ^ 64⟩) := rfl
  rw [Nat.mod_eq_of_lt hr] at h1 h2 h3
  rw [Nat.mod_eq_of_lt hi] at h3
  refine ⟨h1, h2, h3, ?_, ?_, ?_⟩
  · simp only [ShellAppMain, List.length_cons, List.length_nil]
    simp only [Nat.zero_add, Nat.reduceAdd, Nat.reduceEqDiff, if_false, h1, discover]
  · simp only [ShellAppMain, List.length_cons, List.length_nil]
    simp only [Nat.zero_add, Nat.reduceAdd, Nat.reduceEqDiff, if_false, h2, discover]
  · simp only [ShellAppMain, List.length_cons, List.length_nil]
    simp only [Nat.zero_add, Nat.reduceAdd, Nat.reduceEqDiff, if_false, h3, discover]

theorem C12_rdmsr_request_building_witness :
    (examplePlatform EFI_SUCCESS 2 0 (firmwareStartup 2 0)).StrHexToUintn (L ['1', 'B']) < 2 ^ 32 ∧
    (examplePlatform EFI_SUCCESS 2 0 (firmwareStartup 2 0)).StrHexToUintn (L ['1']) < 2 ^ 64 ∧
    scanArgs (examplePlatform EFI_SUCCESS 2 0 (firmwareStartup 2 0)) 3 2
        [L ['U', 'e', 'f', 'i', 'T', 'o', 'o', 'l'], L ['R', 'D', 'M', 'S', 'R'], L ['1', 'B']]
        1 0 ⟨0, 0, 0, 0, 0⟩ =
      some (1, ⟨0x1B, 0, 0, 0, 0⟩) ∧
    scanArgs (examplePlatform EFI_SUCCESS 2 0 (firmwareStartup 2 0)) 4 3
        [L ['U', 'e', 'f', 'i', 'T', 'o', 'o', 'l'], L ['R', 'D', 'M', 'S', 'R'], L ['1', 'B'],
          L ['-', 'A']] 1 0 ⟨0, 0, 0, 0, 0⟩ =
      some (9, ⟨0x1B, 0, 0, 0, 0⟩) ∧
    scanArgs (examplePlatform EFI_SUCCESS 2 0 (firmwareStartup 2 0)) 5 3
        [L ['U', 'e', 'f', 'i', 'T', 'o', 'o', 'l'], L ['R', 'D', 'M', 'S', 'R'], L ['1', 'B'],
          L ['-', 'P'], L ['1']] 1 0 ⟨0, 0, 0, 0, 0⟩ =
      some (17, ⟨0x1B, 0, 0, 0, 1⟩) :=
  ⟨by decide, by decide,
    (C12_rdmsr_request_building (examplePlatform EFI_SUCCESS 2 0 (firmwareStartup 2 0))
      (L ['U', 'e', 'f', 'i', 'T', 'o', 'o', 'l']) (L ['1', 'B']) (L ['1']) 0 exampleState
      (by decide) (by decide)).1,
    (C12_rdmsr_request_building (examplePlatform EFI_SUCCESS 2 0 (firmwareStartup 2 0))
      (L ['U', 'e', 'f', 'i', 'T', 'o', 'o', 'l']) (L ['1', 'B']) (L ['1']) 0 exampleState
      (by decide) (by decide)).2.1,
    (C12_rdmsr_request_building (examplePlatform EFI_SUCCESS 2 0 (firmwareStartup 2 0))
      (L ['U', 'e', 'f', 'i', 'T', 'o', 'o', 'l']) (L ['1', 'B']) (L ['1']) 0 exampleState
      (by decide) (by decide)).2.2.1⟩

/-- C13 (as amended): the invalid-parameter code is returned with no
argument, and with a single argument that is not a help flag; a single help
flag prints the usage and returns 0 without any dispatch. With two arguments
or more (up to 255 tokens) the token loop ends and the program returns 0 once
the dispatcher has returned, whatever the tokens; in particular it returns 0,
having done nothing, when the opcode built is none of the six the dispatcher
handles. -/
theorem C13_exit_codes (p : Platform) (Argv : List (List Nat)) (fuel : Nat) (s : State) :
    (Argv.length = 1 →
      ShellAppMain p fuel Argv s =
        some (.ok (EFI_INVALID_PARAMETER, ShowHelpInfo (Print (.Banner 1) (Print (.Banner 0) s))))) ∧
    (Argv.length = 2 →
      ShellAppMain p fuel Argv s =
        some (.ok
          (if StrCmp (StrUpr (Argv.getD 1 [])) (L ['/', 'H']) = 0 ∨
              StrCmp (StrUpr (Argv.getD 1 [])) (L ['-', 'H']) = 0 ∨
              StrCmp (StrUpr (Argv.getD 1 [])) (L ['/', '?']) = 0 ∨
              StrCmp (StrUpr (Argv.getD 1 [])) (L ['-', '?']) = 0 then
            (EFI_SUCCESS, ShowHelpInfo (Print (.Banner 1) (Print (.Banner 0) s)))
          else (EFI_INVALID_PARAMETER, Print .Invalid (Print (.Banner 1) (Print (.Banner 0) s)))))) ∧
    (3 ≤ Argv.length → Argv.length ≤ 255 → Argv.length ≤ fuel →
      ∃ Opcode ctx, scanArgs p Argv.length fuel Argv 1 0 ⟨0, 0, 0, 0, 0⟩ = some (Opcode, ctx) ∧
        ShellAppMain p fuel Argv s =
          some ((UefiToolRoutine p (discover p) ctx Opcode
            (Print (.Banner 1) (Print (.Banner 0) s))).map (fun s => (0, s))) ∧
        (Opcode ≠ OPCODE_RDMSR_BIT → Opcode ≠ OPCODE_WRMSR_BIT → Opcode ≠ OPCODE_CPUID_BIT →
          Opcode ≠ OPCODE_RDMSR_BIT ||| OPCODE_PROCESSOR_INDEX_BIT →
          Opcode ≠ OPCODE_CPUID_BIT ||| OPCODE_PROCESSOR_INDEX_BIT →
          Opcode ≠ OPCODE_RDMSR_BIT ||| OPCODE_ALLPROCESSOR_BIT →
          ShellAppMain p fuel Argv s =
            some (.ok (0, Print (.Banner 1) (Print (.Banner 0) s))))) ∧
    EFI_INVALID_PARAMETER ≠ 0 ∧ EFI_SUCCESS = 0 := by
  refine ⟨fun h1 => ?_, fun h2 => ?_, fun h3 h255 hfuel => ?_, by decide, rfl⟩
  · simp only [ShellAppMain, h1, if_true]
  · simp only [ShellAppMain, h2]
    simp only [Nat.reduceEqDiff, if_false, if_true]
    split_ifs <;> rfl
  · obtain ⟨r, hr⟩ := scanArgs_terminates p Argv.length h255 fuel Argv 1 0 ⟨0, 0, 0, 0, 0⟩
      (by omega)
    have h1 : Argv.length ≠ 1 := by omega
    have h2 : Argv.length ≠ 2 := by omega
    have hS : ShellAppMain p fuel Argv s =
        some ((UefiToolRoutine p (discover p) r.2 r.1
          (Print (.Banner 1) (Print (.Banner 0) s))).map (fun s => (0, s))) := by
      simp only [ShellAppMain, h1, h2, if_false, hr, discover]
    refine ⟨r.1, r.2, hr, hS, fun a b c d e f => ?_⟩
    rw [hS, UefiToolRoutine_other p _ _ _ _ a b c d e f]
    rfl

theorem C13_exit_codes_witness :
    3 ≤ [L ['U', 'e', 'f', 'i', 'T', 'o', 'o', 'l'], L ['F', 'O', 'O'], L ['B', 'A', 'R']].length ∧
    ∃ Opcode ctx,
      scanArgs (examplePlatform EFI_SUCCESS 2 0 (firmwareStartup 2 0))
        [L ['U', 'e', 'f', 'i', 'T', 'o', 'o', 'l'], L ['F', 'O', 'O'], L ['B', 'A', 'R']].length
        8 [L ['U', 'e', 'f', 'i', 'T', 'o', 'o', 'l'], L ['F', 'O', 'O'], L ['B', 'A', 'R']] 1 0
        ⟨0, 0, 0, 0, 0⟩ = some (Opcode, ctx) ∧
      ShellAppMain (examplePlatform EFI_SUCCESS 2 0 (firmwareStartup 2 0)) 8
          [L ['U', 'e', 'f', 'i', 'T', 'o', 'o', 'l'], L ['F', 'O', 'O'], L ['B', 'A', 'R']]
          exampleState =
        some ((UefiToolRoutine (examplePlatform EFI_SUCCESS 2 0 (firmwareStartup 2 0))
          (discover (examplePlatform EFI_SUCCESS 2 0 (firmwareStartup 2 0))) ctx Opcode
          (Print (.Banner 1) (Print (.Banner 0) exampleState))).map (fun s => (0, s))) ∧
      (Opcode ≠ OPCODE_RDMSR_BIT → Opcode ≠ OPCODE_WRMSR_BIT → Opcode ≠ OPCODE_CPUID_BIT →
        Opcode ≠ OPCODE_RDMSR_BIT ||| OPCODE_PROCESSOR_INDEX_BIT →
        Opcode ≠ OPCODE_CPUID_BIT ||| OPCODE_PROCESSOR_INDEX_BIT →
        Opcode ≠ OPCODE_RDMSR_BIT ||| OPCODE_ALLPROCESSOR_BIT →
        ShellAppMain (examplePlatform EFI_SUCCESS 2 0 (firmwareStartup 2 0)) 8
            [L ['U', 'e', 'f', 'i', 'T', 'o', 'o', 'l'], L ['F', 'O', 'O'], L ['B', 'A', 'R']]
            exampleState =
          some (.ok (0, Print (.Banner 1) (Print (.Banner 0) exampleState)))) :=
  ⟨by decide,
    (C13_exit_codes (examplePlatform EFI_SUCCESS 2 0 (firmwareStartup 2 0))
      [L ['U', 'e', 'f', 'i', 'T', 'o', 'o', 'l'], L ['F', 'O', 'O'], L ['B', 'A', 'R']] 8
      exampleState).2.2.1 (by decide) (by decide) (by decide)⟩

/-- C13, the claim as stated fails: `UefiTool FOO BAR` names no operation, and
`UefiTool WRMSR 10 5 -A` builds a pairing the dispatcher does not handle; both
print the banner only and return 0, not the invalid-parameter code. And
`UefiTool -h` returns 0 although no dispatch was requested or run. -/
theorem C13_counterexample :
    (ShellAppMain (examplePlatform EFI_SUCCESS 2 0 (firmwareStartup 2 0)) 8
        [L ['U', 'e', 'f', 'i', 'T', 'o', 'o', 'l'], L ['F', 'O', 'O'], L ['B', 'A', 'R']]
        exampleState).map (fun o => o.map (fun r => (r.1, r.2.trace))) =
      some (.ok (0, [.Print (.Banner 0), .Print (.Banner 1)])) ∧
    (ShellAppMain (examplePlatform EFI_SUCCESS 2 0 (firmwareStartup 2 0)) 8
        [L ['U', 'e', 'f', 'i', 'T', 'o', 'o', 'l'], L ['W', 'R', 'M', 'S', 'R'], L ['1', '0'],
          L ['5'], L ['-', 'A']]
        exampleState).map (fun o => o.map (fun r => (r.1, r.2.trace))) =
      some (.ok (0, [.Print (.Banner 0), .Print (.Banner 1)])) ∧
    (ShellAppMain (examplePlatform EFI_SUCCESS 2 0 (firmwareStartup 2 0)) 8
        [L ['U', 'e', 'f', 'i', 'T', 'o', 'o', 'l'], L ['-', 'h']]
        exampleState).map (fun o => o.map (fun r => (r.1, primitives r.2.trace,
          remoteCalls r.2.trace, records r.2.trace))) =
      some (.ok (0, [], [], [])) ∧
    EFI_INVALID_PARAMETER ≠ 0 := by
  refine ⟨rfl, rfl, rfl, by decide⟩

/-- C14, the failing input: a vector of 256 tokens, each the flag `-A` and
none an operation keyword. The 8-bit index wraps from 255 to 0 before it can
exceed the count, so the token loop has not ended after any number of
iterations: no request is built and `ShellAppMain` never reaches the
dispatcher. -/
theorem C14_no_request_from_256_tokens (p : Platform) (fuel : Nat) (s : State) :
    NoOperationKeyword 256 (List.replicate 256 (L ['-', 'A'])) ∧
    scanArgs p 256 fuel (List.replicate 256 (L ['-', 'A'])) 1 0 ⟨0, 0, 0, 0, 0⟩ = none ∧
    ShellAppMain p fuel (List.replicate 256 (L ['-', 'A'])) s = none := by
  have hd := scanArgs_diverges p 256 (by decide) fuel (List.replicate 256 (L ['-', 'A'])) 1 0
    ⟨0, 0, 0, 0, 0⟩ (by decide)
  refine ⟨fun i => ?_, hd, ?_⟩
  · rcases getD_replicate_nil 256 i (L ['-', 'A']) with hg | hg <;> rw [hg] <;>
      exact ⟨fun _ => by decide, fun _ => by decide⟩
  · simp only [ShellAppMain, List.length_replicate]
    simp only [Nat.reduceEqDiff, if_false, hd]

/-- C15 (as amended): on a discovered topology every targeted register-read
record, in place or remote, under `PROCESSOR_INDEX` or `ALLPROCESSOR`, reports
the index of its processor and that processor's package, core and thread,
followed by one 64-bit value; every targeted identification record reports
the package, core and thread of its processor, but not the index, followed by
four 32-bit fields; the records of `RDMSR`, `WRMSR` and `CPUID` alone report
neither index nor coordinates. A processor has a record when its primitive has
run: always for the boot index, for another index when `StartupThisAP` runs
the procedure. -/
theorem C15_record_contents (p : Platform) (g : Globals) (ctx : UEFI_TOOL_CONTEXT) (s : State)
    (h : g.Discovered) :
    (ctx.ProcessorIndex < g.mProcessorNum →
      ∃ t, UefiToolRoutine p g ctx (OPCODE_RDMSR_BIT ||| OPCODE_PROCESSOR_INDEX_BIT) s =
          .ok ⟨s.msr, s.trace ++ t⟩ ∧
        records t =
          if executes p g ctx.ProcessorIndex then
            [{ ProcNum := some ctx.ProcessorIndex,
               Location := some (g.descriptor ctx.ProcessorIndex).Location,
               Fields := [s.msr (readSite g ctx.ProcessorIndex) ctx.MsrIndex % 2 ^ 64] }]
          else []) ∧
    (∃ t, UefiToolRoutine p g ctx (OPCODE_RDMSR_BIT ||| OPCODE_ALLPROCESSOR_BIT) s =
        .ok ⟨s.msr, s.trace ++ t⟩ ∧
      records t = ((List.range g.mProcessorNum).filter (executes p g)).map (fun k =>
        { ProcNum := some k, Location := some (g.descriptor k).Location,
          Fields := [s.msr (readSite g k) ctx.MsrIndex % 2 ^ 64] })) ∧
    (ctx.ProcessorIndex < g.mProcessorNum →
      ∃ t, UefiToolRoutine p g ctx (OPCODE_CPUID_BIT ||| OPCODE_PROCESSOR_INDEX_BIT) s =
          .ok ⟨s.msr, s.trace ++ t⟩ ∧
        records t =
          if executes p g ctx.ProcessorIndex then
            [{ ProcNum := none,
               Location := some (g.descriptor ctx.ProcessorIndex).Location,
               Fields := cpuidFields p ctx (readSite g ctx.ProcessorIndex) }]
          else []) ∧
    (∃ t, UefiToolRoutine p g ctx OPCODE_RDMSR_BIT s = .ok ⟨s.msr, s.trace ++ t⟩ ∧
      records t = [{ ProcNum := none, Location := none,
                     Fields := [s.msr .Caller ctx.MsrIndex % 2 ^ 64] }]) ∧
    (∃ m t, UefiToolRoutine p g ctx OPCODE_WRMSR_BIT s = .ok ⟨m, s.trace ++ t⟩ ∧
      records t = [{ ProcNum := none, Location := none, Fields := [ctx.MsrValue] }]) ∧
    (∃ t, UefiToolRoutine p g ctx OPCODE_CPUID_BIT s = .ok ⟨s.msr, s.trace ++ t⟩ ∧
      records t = [{ ProcNum := none, Location := none,
                     Fields := cpuidFields p ctx .Caller }]) ∧
    executes p g g.mBspIndex = true ∧
    (∀ site Index, s.msr site Index % 2 ^ 64 < 2 ^ 64) ∧
    (∀ site, (cpuidFields p ctx site).length = 4 ∧ ∀ v ∈ cpuidFields p ctx site, v < 2 ^ 32) := by
  refine ⟨fun hidx => ⟨_, ?_, records_rdmsrEvents p g ctx s.msr _⟩,
    ⟨_, rdmsrSweep_all p h ctx s, ?_⟩,
    fun hidx => ⟨_, ?_, records_cpuidEvents p g ctx _⟩,
    ⟨_, UefiToolRoutine_rdmsr p g ctx s, ?_⟩,
    ⟨_, _, UefiToolRoutine_wrmsr p g ctx s, ?_⟩,
    ⟨_, UefiToolRoutine_cpuid p g ctx s, ?_⟩, ?_, ?_, ?_⟩
  · rw [UefiToolRoutine_rdmsr_index]; exact rdmsrOn_eq p h ctx hidx s
  · rw [records, recordsAux_rdmsrEvents_gen]
  · rw [UefiToolRoutine_cpuid_index]; exact cpuidOn_eq p h ctx hidx s
  · simp [records, recordsAux]
  · simp [records, recordsAux]
  · simp [records, recordsAux, cpuidFields]
  · simp [executes]
  · intro site Index
    exact Nat.mod_lt _ (by norm_num)
  · intro site
    refine ⟨rfl, ?_⟩
    intro v hv
    simp only [cpuidFields, List.mem_cons, List.mem_singleton, List.not_mem_nil, or_false] at hv
    rcases hv with rfl | rfl | rfl | rfl <;> exact Nat.mod_lt _ (by decide)

theorem C15_record_contents_witness :
    (discover (smtPlatform 8 0)).Discovered ∧
    (∃ t, UefiToolRoutine (smtPlatform 8 0) (discover (smtPlatform 8 0)) (exampleContext 5)
          (OPCODE_RDMSR_BIT ||| OPCODE_PROCESSOR_INDEX_BIT) exampleState =
          .ok ⟨exampleState.msr, exampleState.trace ++ t⟩ ∧
        records t = [{ ProcNum := some 5, Location := some ⟨1, 0, 1⟩, Fields := [23] }]) ∧
    (∃ t, UefiToolRoutine (smtPlatform 8 0) (discover (smtPlatform 8 0)) (exampleContext 5)
          (OPCODE_CPUID_BIT ||| OPCODE_PROCESSOR_INDEX_BIT) exampleState =
          .ok ⟨exampleState.msr, exampleState.trace ++ t⟩ ∧
        records t = [{ ProcNum := none, Location := some ⟨1, 0, 1⟩, Fields := [1, 0, 0, 0] }]) :=
  ⟨by decide,
    (C15_record_contents (smtPlatform 8 0) (discover (smtPlatform 8 0)) (exampleContext 5)
      exampleState (by decide)).1 (by decide),
    (C15_record_contents (smtPlatform 8 0) (discover (smtPlatform 8 0)) (exampleContext 5)
      exampleState (by decide)).2.2.1 (by decide)⟩

/-- C15, the claim as stated fails: `CPUID 7 0 -P 5` on eight processors
(boot processor 0; processor 5 is package 1, core 0, thread 1) prints the
header line with arguments 1, 0, 1, 7, 0 and four register lines: the record
carries the coordinates of processor 5 but not its index. -/
theorem C15_counterexample :
    (ShellAppMain (smtPlatform 8 0) 8
        [L ['U', 'e', 'f', 'i', 'T', 'o', 'o', 'l'], L ['C', 'P', 'U', 'I', 'D'], L ['7'],
          L ['0'], L ['-', 'P'], L ['5']] exampleState).map
        (fun o => o.map (fun r => r.2.trace)) =
      some (.ok [.Print (.Banner 0), .Print (.Banner 1), .StartupThisAP .ApUtReadCpuId 5,
        .AsmCpuidEx (.AP 5) 7 0, .Print (.CpuIdProc 1 0 1 7 0), .Print (.Reg .EAX 7),
        .Print (.Reg .EBX 0), .Print (.Reg .ECX 0), .Print (.Reg .EDX 0)]) ∧
    (ShellAppMain (smtPlatform 8 0) 8
        [L ['U', 'e', 'f', 'i', 'T', 'o', 'o', 'l'], L ['C', 'P', 'U', 'I', 'D'], L ['7'],
          L ['0'], L ['-', 'P'], L ['5']] exampleState).map
        (fun o => o.map (fun r => (records r.2.trace).map (fun c => c.ProcNum))) =
      some (.ok [none]) := by
  refine ⟨rfl, rfl⟩

/-- C16, the failing input: with 256 tokens (here each the token `X`) the
8-bit index, advanced modulo `2^8`, is always below 256 and so never
satisfies `Index + 1 > Argc`: whatever the number of iterations allowed, the
token loop has not ended and `ShellAppMain` has not returned. -/
theorem C16_scan_does_not_end_at_256_tokens (p : Platform) (fuel : Nat) (s : State) :
    (List.replicate 256 (L ['X'])).length = 256 ∧
    scanArgs p 256 fuel (List.replicate 256 (L ['X'])) 1 0 ⟨0, 0, 0, 0, 0⟩ = none ∧
    ShellAppMain p fuel (List.replicate 256 (L ['X'])) s = none := by
  have hd := scanArgs_diverges p 256 (by decide) fuel (List.replicate 256 (L ['X'])) 1 0
    ⟨0, 0, 0, 0, 0⟩ (by decide)
  refine ⟨List.length_replicate _ _, hd, ?_⟩
  simp only [ShellAppMain, List.length_replicate]
  simp only [Nat.reduceEqDiff, if_false, hd]

/-- C17: keyword recognition does not see the case of ASCII letters. When
the hexadecimal conversion of the library does not either, two argument
vectors whose tokens agree once upper-cased (such as a vector and the one got
by putting a case variant of `RDMSR`, `WRMSR`, `CPUID`, `-A` or `-P` in the
place of that token) give the same opcode and context from the token loop,
after any number of iterations, and the same run of `ShellAppMain`. `ToUpper`
takes `a..z` to `A..Z`, leaves every other code unit alone and is idempotent,
and so is `StrUpr`. -/
theorem C17_keywords_ignore_case (p : Platform)
    (hhex : ∀ a b, StrUpr a = StrUpr b → p.StrHexToUintn a = p.StrHexToUintn b)
    (A B : List (List Nat)) (h : SameUpToCase A B) :
    (∀ Argc fuel Index Opcode ctx,
      scanArgs p Argc fuel A Index Opcode ctx = scanArgs p Argc fuel B Index Opcode ctx) ∧
    (∀ fuel s, ShellAppMain p fuel A s = ShellAppMain p fuel B s) ∧
    (∀ k v, StrUpr v = StrUpr (A.getD k []) →
      ∀ fuel s, ShellAppMain p fuel (A.set k v) s = ShellAppMain p fuel A s) ∧
    (∀ a, (97 ≤ a ∧ a ≤ 122 → ToUpper a = a - 32 ∧ 65 ≤ ToUpper a ∧ ToUpper a ≤ 90) ∧
      (¬ (97 ≤ a ∧ a ≤ 122) → ToUpper a = a) ∧ ToUpper (ToUpper a) = ToUpper a) ∧
    (∀ str, StrUpr (StrUpr str) = StrUpr str) := by
  refine ⟨fun Argc fuel Index Opcode ctx => scanArgs_case p hhex Argc fuel A B h Index Opcode ctx,
    fun fuel s => ShellAppMain_case p hhex h fuel s,
    fun k v hv fuel s => ShellAppMain_case p hhex (SameUpToCase_replace A k v hv) fuel s,
    fun a => ⟨fun ha => ?_, ToUpper_of_not_lower a, ToUpper_idem a⟩, StrUpr_idem⟩
  rw [ToUpper_of_lower a ha]
  omega

theorem C17_keywords_ignore_case_witness :
    SameUpToCase
      [L ['U', 'e', 'f', 'i', 'T', 'o', 'o', 'l'], L ['r', 'd', 'M', 's', 'r'], L ['1', 'B'],
        L ['-', 'a']]
      [L ['U', 'e', 'f', 'i', 'T', 'o', 'o', 'l'], L ['R', 'D', 'M', 'S', 'R'], L ['1', 'B'],
        L ['-', 'A']] ∧
    scanArgs (examplePlatform EFI_SUCCESS 2 0 (firmwareStartup 2 0)) 4 4
        [L ['U', 'e', 'f', 'i', 'T', 'o', 'o', 'l'], L ['r', 'd', 'M', 's', 'r'], L ['1', 'B'],
          L ['-', 'a']] 1 0 ⟨0, 0, 0, 0, 0⟩ =
      scanArgs (examplePlatform EFI_SUCCESS 2 0 (firmwareStartup 2 0)) 4 4
        [L ['U', 'e', 'f', 'i', 'T', 'o', 'o', 'l'], L ['R', 'D', 'M', 'S', 'R'], L ['1', 'B'],
          L ['-', 'A']] 1 0 ⟨0, 0, 0, 0, 0⟩ ∧
    scanArgs (examplePlatform EFI_SUCCESS 2 0 (firmwareStartup 2 0)) 4 4
        [L ['U', 'e', 'f', 'i', 'T', 'o', 'o', 'l'], L ['R', 'D', 'M', 'S', 'R'], L ['1', 'B'],
          L ['-', 'A']] 1 0 ⟨0, 0, 0, 0, 0⟩ = some (9, ⟨0x1B, 0, 0, 0, 0⟩) :=
  ⟨⟨rfl, fun i => by rcases i with _ | _ | _ | _ | i <;> rfl⟩,
    (C17_keywords_ignore_case (examplePlatform EFI_SUCCESS 2 0 (firmwareStartup 2 0))
      (examplePlatform_hex_case _ _ _ _) _ _
      ⟨rfl, fun i => by rcases i with _ | _ | _ | _ | i <;> rfl⟩).1 4 4 1 0 ⟨0, 0, 0, 0, 0⟩,
    by decide⟩

/-- C18: the place of the target flag does not matter. For all tokens `r`, `i`,
`leaf`, `sub`: `-A RDMSR r` and `RDMSR r -A` give the same opcode and context,
and so do `-P i RDMSR r` and `RDMSR r -P i`, `-A CPUID leaf sub` and
`CPUID leaf sub -A`, `-P i CPUID leaf sub` and `CPUID leaf sub -P i`. -/
theorem C18_flag_position (p : Platform) (prog r i leaf sub : List Nat) (fuel : Nat) :
    (scanArgs p 4 (fuel + 3) [prog, L ['-', 'A'], L ['R', 'D', 'M', 'S', 'R'], r] 1 0
        ⟨0, 0, 0, 0, 0⟩ =
      some (OPCODE_RDMSR_BIT ||| OPCODE_ALLPROCESSOR_BIT,
        ⟨p.StrHexToUintn r % 2 ^ 32, 0, 0, 0, 0⟩) ∧
    scanArgs p 4 (fuel + 3) [prog, L ['R', 'D', 'M', 'S', 'R'], r, L ['-', 'A']] 1 0
        ⟨0, 0, 0, 0, 0⟩ =
      some (OPCODE_RDMSR_BIT ||| OPCODE_ALLPROCESSOR_BIT,
        ⟨p.StrHexToUintn r % 2 ^ 32, 0, 0, 0, 0⟩)) ∧
    (scanArgs p 5 (fuel + 3) [prog, L ['-', 'P'], i, L ['R', 'D', 'M', 'S', 'R'], r] 1 0
        ⟨0, 0, 0, 0, 0⟩ =
      some (OPCODE_RDMSR_BIT ||| OPCODE_PROCESSOR_INDEX_BIT,
        ⟨p.StrHexToUintn r % 2 ^ 32, 0, 0, 0, p.StrHexToUintn i % 2 ^ 64⟩) ∧
    scanArgs p 5 (fuel + 3) [prog, L ['R', 'D', 'M', 'S', 'R'], r, L ['-', 'P'], i] 1 0
        ⟨0, 0, 0, 0, 0⟩ =
      some (OPCODE_RDMSR_BIT ||| OPCODE_PROCESSOR_INDEX_BIT,
        ⟨p.StrHexToUintn r % 2 ^ 32, 0, 0, 0, p.StrHexToUintn i % 2 ^ 64⟩)) ∧
    (scanArgs p 5 (fuel + 3) [prog, L ['-', 'A'], L ['C', 'P', 'U', 'I', 'D'], leaf, sub] 1 0
        ⟨0, 0, 0, 0, 0⟩ =
      some (OPCODE_CPUID_BIT ||| OPCODE_ALLPROCESSOR_BIT,
        ⟨0, 0, p.StrHexToUintn leaf % 2 ^ 32, p.StrHexToUintn sub % 2 ^ 32, 0⟩) ∧
    scanArgs p 5 (fuel + 3) [prog, L ['C', 'P', 'U', 'I', 'D'], leaf, sub, L ['-', 'A']] 1 0
        ⟨0, 0, 0, 0, 0⟩ =
      some (OPCODE_CPUID_BIT ||| OPCODE_ALLPROCESSOR_BIT,
        ⟨0, 0, p.StrHexToUintn leaf % 2 ^ 32, p.StrHexToUintn sub % 2 ^ 32, 0⟩)) ∧
    (scanArgs p 6 (fuel + 3) [prog, L ['-', 'P'], i, L ['C', 'P', 'U', 'I', 'D'], leaf, sub] 1 0
        ⟨0, 0, 0, 0, 0⟩ =
      some (OPCODE_CPUID_BIT ||| OPCODE_PROCESSOR_INDEX_BIT,
        ⟨0, 0, p.StrHexToUintn leaf % 2 ^ 32, p.StrHexToUintn sub % 2 ^ 32,
          p.StrHexToUintn i % 2 ^ 64⟩) ∧
    scanArgs p 6 (fuel + 3) [prog, L ['C', 'P', 'U', 'I', 'D'], leaf, sub, L ['-', 'P'], i] 1 0
        ⟨0, 0, 0, 0, 0⟩ =
      some (OPCODE_CPUID_BIT ||| OPCODE_PROCESSOR_INDEX_BIT,
        ⟨0, 0, p.StrHexToUintn leaf % 2 ^ 32, p.StrHexToUintn sub % 2 ^ 32,
          p.StrHexToUintn i % 2 ^ 64⟩)) :=
  ⟨⟨rfl, rfl⟩, ⟨rfl, rfl⟩, ⟨rfl, rfl⟩, ⟨rfl, rfl⟩⟩

end UefiTool
